import Mathlib

/-!
Shallow embedding of the CryptoPulse forecasting service
(`WebApplication/server/app/services/forecasting.py`, `model_loader.py`,
`sentiment.py`).

Conventions of the embedding:
* pandas/NumPy cells that may be NaN are modelled as `Option ℚ` (`none` = NaN);
  `dropna` keeps exactly the rows whose cells are all `some`.
* Machine floats are modelled as exact rationals.  Theorems about division-based
  features carry positivity hypotheses on prices, since for zero prices the
  source produces non-finite floats (`inf`) that a `Option`-based model cannot
  mirror; all claims are about market price data, which is positive.
* Timestamps are modelled as integers (seconds); `timedelta.days` is floor
  division by 86400.
* External artifacts (pickled sklearn models, keras models, the Binance HTTP
  response, random noise) are inputs of the embedded functions: a model's
  inference result is an `Option (List ℚ)` input, `none` meaning the call
  raised.
-/

namespace CryptoPulse

/-! ### Generic helpers for NaN-propagating columns -/

/-- Sequence a list of possibly-NaN cells: `some` of the values when no cell is
NaN, otherwise `none`.  This is how `dropna` decides whether a row survives. -/
def optSeq : List (Option ℚ) → Option (List ℚ)
  | [] => some []
  | none :: _ => none
  | some x :: rest => (optSeq rest).map (fun xs => x :: xs)

/-- Arithmetic mean of a list (pandas `rolling(w).mean()` applies this to a full
window). -/
def listMean (xs : List ℚ) : ℚ := xs.sum / (xs.length : ℚ)

/-- Sample variance with `ddof = 1` (pandas `rolling(w).std()` is the square
root of this; the square root is irrational, and no verified claim depends on
the value of the volatility column, only on its definedness, so the variance is
recorded instead). -/
def listSampleVar (xs : List ℚ) : ℚ :=
  (xs.map (fun x => (x - listMean xs) ^ 2)).sum / ((xs.length : ℚ) - 1)

/-- The window `[i+1-w, i]` of a column, as pandas `rolling(w)` sees it at
row `i` (only evaluated when `w ≤ i + 1`). -/
def rollWindow (col : ℕ → Option ℚ) (w i : ℕ) : List (Option ℚ) :=
  (List.range w).map (fun j => col (i + 1 - w + j))

/-- pandas `rolling(w).agg f` at row `i`: NaN while the window is not yet full
(`i + 1 < w`, since `min_periods` defaults to the window size) or while any cell
in the window is NaN, otherwise `f` of the window. -/
def rollingApply (col : ℕ → Option ℚ) (w : ℕ) (f : List ℚ → ℚ) (i : ℕ) : Option ℚ :=
  if w ≤ i + 1 then (optSeq (rollWindow col w i)).map f else none

/-! ### Candles and the feature engineering of `forecasting.py`

`_prepare_feature_matrix` (lines 170-237), `engineer_ml_features`
(lines 400-414) and `engineer_hourly_features` (lines 582-594). -/

/-- One OHLCV candle (a row of the data frames produced by
`_fetch_binance_klines` / `_load_price_series_from_csv`).  `time` is kept
abstract as an integer instant; only its ordering is ever used. -/
structure Candle where
  time : ℤ
  Open : ℚ
  High : ℚ
  Low : ℚ
  Close : ℚ
  Volume : ℚ
deriving DecidableEq, Repr

/-- The `Open` column. -/
def colOpen (df : List Candle) (i : ℕ) : Option ℚ := (df.get? i).map Candle.Open

/-- The `High` column. -/
def colHigh (df : List Candle) (i : ℕ) : Option ℚ := (df.get? i).map Candle.High

/-- The `Low` column. -/
def colLow (df : List Candle) (i : ℕ) : Option ℚ := (df.get? i).map Candle.Low

/-- The `Close` column. -/
def colClose (df : List Candle) (i : ℕ) : Option ℚ := (df.get? i).map Candle.Close

/-- The `Volume` column. -/
def colVolume (df : List Candle) (i : ℕ) : Option ℚ := (df.get? i).map Candle.Volume

/-- `df["Close"].rolling(w).mean()` — the `MA_w` columns. -/
def colMA (df : List Candle) (w : ℕ) (i : ℕ) : Option ℚ :=
  rollingApply (colClose df) w listMean i

/-- `df["Close"].pct_change()` — the `Returns` column; NaN on the first row.
(The source divides by the previous close; for a zero close pandas would give a
non-finite float, which is outside the positive-price domain of the claims.) -/
def colReturns (df : List Candle) (i : ℕ) : Option ℚ :=
  if i = 0 then none
  else
    match colClose df (i - 1), colClose df i with
    | some prev, some cur => some ((cur - prev) / prev)
    | _, _ => none

/-- `df["Returns"].rolling(w).std()` — the `Volatility` column (variance
recorded, see `listSampleVar`). -/
def colVolatility (df : List Candle) (w : ℕ) (i : ℕ) : Option ℚ :=
  rollingApply (colReturns df) w listSampleVar i

/-- `df["High"] - df["Low"]` — the `Price_Range` column. -/
def colPriceRange (df : List Candle) (i : ℕ) : Option ℚ :=
  (df.get? i).map (fun c => c.High - c.Low)

/-- `df["Close"] - df["Open"]` — the `Price_Change` column. -/
def colPriceChange (df : List Candle) (i : ℕ) : Option ℚ :=
  (df.get? i).map (fun c => c.Close - c.Open)

/-- `df["Volume"].rolling(w).mean()` — the `Volume_MA_w` columns. -/
def colVolumeMA (df : List Candle) (w : ℕ) (i : ℕ) : Option ℚ :=
  rollingApply (colVolume df) w listMean i

/-- `df["High"] / df["Low"]` — the `High_Low_Ratio` column (for `Low = 0`
pandas would give a non-finite float; outside the positive-price domain). -/
def colHighLowRatio (df : List Candle) (i : ℕ) : Option ℚ :=
  (df.get? i).map (fun c => c.High / c.Low)

/-- Row `i` of the hourly feature schema of `_prepare_feature_matrix`
(`horizon_days ≤ 2`): OHLCV, `MA_12`, `MA_24`, `MA_168`, `Returns`,
`Volatility` (12-window), `Price_Range`, `Price_Change` — in the source's
`feature_cols` order. -/
def hourlyFeatureRow (df : List Candle) (i : ℕ) : List (Option ℚ) :=
  [colOpen df i, colHigh df i, colLow df i, colClose df i, colVolume df i,
   colMA df 12 i, colMA df 24 i, colMA df 168 i,
   colReturns df i, colVolatility df 12 i,
   colPriceRange df i, colPriceChange df i]

/-- Row `i` of the daily feature schema of `_prepare_feature_matrix`
(`horizon_days > 2`): OHLCV, `MA_7/14/30/50`, `Returns`, `Volatility`
(7-window), `Price_Range`, `Price_Change`, `Volume_MA_7`, `High_Low_Ratio`. -/
def dailyFeatureRow (df : List Candle) (i : ℕ) : List (Option ℚ) :=
  [colOpen df i, colHigh df i, colLow df i, colClose df i, colVolume df i,
   colMA df 7 i, colMA df 14 i, colMA df 30 i, colMA df 50 i,
   colReturns df i, colVolatility df 7 i,
   colPriceRange df i, colPriceChange df i,
   colVolumeMA df 7 i, colHighLowRatio df i]

/-- `_prepare_feature_matrix` for the hourly schema: engineer the columns,
`dropna` (a row survives iff every cell is defined), and read off the feature
values.  The original columns (`time`, OHLCV) are never NaN, so dropping over
the whole frame equals dropping over the engineered feature columns. -/
def prepare_feature_matrix_hourly (df : List Candle) : List (List ℚ) :=
  (List.range df.length).filterMap (fun i => optSeq (hourlyFeatureRow df i))

/-- `_prepare_feature_matrix` for the daily schema (see
`prepare_feature_matrix_hourly`). -/
def prepare_feature_matrix_daily (df : List Candle) : List (List ℚ) :=
  (List.range df.length).filterMap (fun i => optSeq (dailyFeatureRow df i))

/-- Row count of `engineer_ml_features(df)` (daily GBR branch, lines 400-414):
it engineers exactly the columns of the daily schema above (including `MA_50`)
and drops NaN rows, so its surviving row set is that of
`prepare_feature_matrix_daily`. -/
def engineer_ml_features_len (df : List Candle) : ℕ :=
  (List.range df.length).countP (fun i => (optSeq (dailyFeatureRow df i)).isSome)

/-- Row `i` of `engineer_hourly_features` (`generate_hourly_forecast`,
lines 582-594): OHLCV, `MA_12`, `MA_24`, `Returns`, `Volatility` (12-window),
`Price_Range`, `Price_Change`, `Volume_MA_12`, `High_Low_Ratio`. -/
def hourlyMlFeatureRow (df : List Candle) (i : ℕ) : List (Option ℚ) :=
  [colOpen df i, colHigh df i, colLow df i, colClose df i, colVolume df i,
   colMA df 12 i, colMA df 24 i,
   colReturns df i, colVolatility df 12 i,
   colPriceRange df i, colPriceChange df i,
   colVolumeMA df 12 i, colHighLowRatio df i]

/-- Row count of `engineer_hourly_features(df)`. -/
def engineer_hourly_features_len (df : List Candle) : ℕ :=
  (List.range df.length).countP (fun i => (optSeq (hourlyMlFeatureRow df i)).isSome)

/-! ### Multi-step target construction

`generate_forecast` lines 437-445 and `generate_hourly_forecast` lines 622-629:
on the (fully defined) feature frame, column `Close_t+k` is
`Close.shift(-k)` for `k = 1..N`, then `dropna`. -/

/-- The target cells of row `i`: `Close_t+k = closes[i + k]` for `k = 1..N`
(`shift(-k)` is NaN once `i + k` runs past the end). -/
def targetRow (closes : List ℚ) (N i : ℕ) : Option (List ℚ) :=
  optSeq ((List.range N).map (fun k => closes.get? (i + (k + 1))))

/-- The multi-output target matrix `y` after `dropna` (the feature columns of
the frame are all defined, so a row survives iff all `N` targets exist). -/
def multiTargetMatrix (closes : List ℚ) (N : ℕ) : List (List ℚ) :=
  (List.range closes.length).filterMap (targetRow closes N)

/-! ### Technical-indicator summarizer (`sentiment.py`) -/

/-- `series.diff()`: NaN on the first row, first difference afterwards. -/
def seriesDiff (xs : List ℚ) : List (Option ℚ) :=
  (List.range xs.length).map (fun i =>
    if i = 0 then none else some (xs.getD i 0 - xs.getD (i - 1) 0))

/-- `delta.where(delta > 0, 0)`: keeps positive deltas, everything else
(including the leading NaN, for which the comparison is false) becomes `0`. -/
def gainsOf (delta : List (Option ℚ)) : List ℚ :=
  delta.map (fun o =>
    match o with
    | some d => if 0 < d then d else 0
    | none => 0)

/-- `-(delta.where(delta < 0, 0))`: magnitude of negative deltas, `0`
elsewhere. -/
def lossesOf (delta : List (Option ℚ)) : List ℚ :=
  delta.map (fun o =>
    match o with
    | some d => if d < 0 then -d else 0
    | none => 0)

/-- `rolling(w).mean()` over a fully defined series. -/
def rollingMeanList (xs : List ℚ) (w : ℕ) : List (Option ℚ) :=
  (List.range xs.length).map (fun i =>
    if w ≤ i + 1 then some (listMean ((xs.drop (i + 1 - w)).take w)) else none)

/-- `series.replace({0: np.nan})`. -/
def replaceZeroWithNaN (xs : List (Option ℚ)) : List (Option ℚ) :=
  xs.map (fun o =>
    match o with
    | some v => if v = 0 then none else some v
    | none => none)

/-- `_rsi` (sentiment.py lines 6-12): `rs = gain_ma / loss_ma.replace({0: NaN})`,
`rsi = 100 - 100 / (1 + rs)`, final value.  Division and arithmetic propagate
NaN; the result is the last cell (`none` = NaN).  (`1 + rs = 0` cannot occur:
`rs ≥ 0` whenever it is defined.) -/
def rsi (series : List ℚ) (period : ℕ := 14) : Option ℚ :=
  let delta := seriesDiff series
  let gain := rollingMeanList (gainsOf delta) period
  let loss := rollingMeanList (lossesOf delta) period
  let rs := List.zipWith (fun g l =>
    match g, l with
    | some a, some b => some (a / b)
    | _, _ => none) gain (replaceZeroWithNaN loss)
  ((rs.map (fun o => o.map (fun r => 100 - 100 / (1 + r)))).getLastD none)

/-- `series.ewm(span, adjust=False).mean()` recursion after the first value:
`e_i = α x_i + (1 - α) e_(i-1)`. -/
def emaAux (a : ℚ) (prev : ℚ) : List ℚ → List ℚ
  | [] => []
  | x :: rest =>
    let e := a * x + (1 - a) * prev
    e :: emaAux a e rest

/-- `series.ewm(span=span, adjust=False).mean()` with `α = 2 / (span + 1)` and
`e_0 = x_0`. -/
def emaList (span : ℕ) (xs : List ℚ) : List ℚ :=
  match xs with
  | [] => []
  | x :: rest => x :: emaAux (2 / ((span : ℚ) + 1)) x rest

/-- `_ema` (lines 15-16): last value of the exponential moving average. -/
def ema (series : List ℚ) (span : ℕ) : ℚ := (emaList span series).getLastD 0

/-- `_macd` (lines 19-24): `(macd_line.iloc[-1], signal.iloc[-1])`. -/
def macd (series : List ℚ) : ℚ × ℚ :=
  let macd_line := List.zipWith (fun a b => a - b) (emaList 12 series) (emaList 26 series)
  (macd_line.getLastD 0, (emaList 9 macd_line).getLastD 0)

/-- `series.pct_change()` on a fully defined series (NaN on the first row;
zero previous values are outside the positive-price domain, cf.
`colReturns`). -/
def pctChangeList (xs : List ℚ) : List (Option ℚ) :=
  (List.range xs.length).map (fun i =>
    if i = 0 then none else some ((xs.getD i 0 - xs.getD (i - 1) 0) / xs.getD (i - 1) 0))

/-- `_volatility` (lines 27-28): last cell of the 10-window rolling std of
returns (variance recorded, cf. `listSampleVar`). -/
def sentimentVolatility (series : List ℚ) (window : ℕ := 10) : Option ℚ :=
  ((List.range series.length).map (fun i =>
    rollingApply (fun j => (pctChangeList series).getD j none) window listSampleVar i)).getLastD none

/-- `float(nan) > t` is false in Python; NaN-aware strict comparison. -/
def optGT (o : Option ℚ) (t : ℚ) : Bool :=
  match o with
  | some v => decide (t < v)
  | none => false

/-- NaN-aware `< t`. -/
def optLT (o : Option ℚ) (t : ℚ) : Bool :=
  match o with
  | some v => decide (v < t)
  | none => false

/-- The dictionary returned by `classify_sentiment`. -/
structure SentimentOut where
  horizon : ℕ
  label : String
  score : ℚ
  rsi : Option ℚ
  macd : ℚ
  macd_signal : ℚ
  ema_short : ℚ
  ema_long : ℚ
  volatility : Option ℚ
  momentum : Option ℚ
deriving Repr

/-- `classify_sentiment` (sentiment.py lines 31-63).  The combined series is
`latest_actual ++ forecast`; Bullish needs `macd > signal`, `ema9 > ema21` and
`rsi > 55` (all false when RSI is NaN), Bearish the mirrored condition with
`rsi < 45`, otherwise Neutral with score 0. -/
def classify_sentiment (latest_actual forecast : List ℚ) (horizon : ℕ) : SentimentOut :=
  let combined := latest_actual ++ forecast
  let rsi_val := rsi combined
  let macd_vals := macd combined
  let ema_short := ema combined 9
  let ema_long := ema combined 21
  let vol := sentimentVolatility combined
  let momentum := (seriesDiff combined).getLastD none
  let bull := decide (macd_vals.2 < macd_vals.1) && decide (ema_long < ema_short) && optGT rsi_val 55
  let bear := decide (macd_vals.1 < macd_vals.2) && decide (ema_short < ema_long) && optLT rsi_val 45
  let label := if bull then "Bullish" else if bear then "Bearish" else "Neutral"
  let score : ℚ :=
    if bull then 7/10 + min ((rsi_val.getD 0 - 55) / 100) (3/10)
    else if bear then -(7/10) - min ((45 - rsi_val.getD 0) / 100) (3/10)
    else 0
  { horizon := horizon, label := label, score := score, rsi := rsi_val,
    macd := macd_vals.1, macd_signal := macd_vals.2,
    ema_short := ema_short, ema_long := ema_long,
    volatility := vol, momentum := momentum }

/-! ### ML model store (`model_loader.py`, lines 166-288)

Pickled sklearn artifacts are opaque blobs (`Unit`); what matters to the
verified claims is which files exist and what the metadata record carries. -/

/-- The metadata dictionary for the daily GBR model.  Keys may be absent
(`meta.get` returns `None`), hence the `Option` fields.  The `info` dict built
on retrain (forecasting.py lines 487-498) also carries the constant
hyperparameters (`algorithm`, `forecast_steps`, `n_estimators`, `max_depth`,
`learning_rate`), which no consumer reads and which are not modelled.  Note the
dict stores only the *average* RMSE over the 30 steps (`avg_rmse`), not the
per-step list. -/
structure MLMeta where
  timestamp : Option ℤ
  data_shape : Option ℕ
  r2_testing : Option ℚ
  avg_rmse : Option ℚ
  feature_cols : Option (List String)
deriving DecidableEq, Repr

/-- The persisted file set for one `(coin, horizon)` daily-GBR key: model
pickle, the two scaler pickles, and the two metadata files `…_info.pkl` /
`…_metadata.json` that `load_ml_model_info` looks for. -/
structure MLStore where
  model : Option Unit
  scaler_x : Option Unit
  scaler_y : Option Unit
  meta_pkl : Option MLMeta
  meta_json : Option MLMeta
deriving DecidableEq, Repr

/-- A store with no files on disk. -/
def MLStore.empty : MLStore := ⟨none, none, none, none, none⟩

/-- `load_ml_model_and_scalers` (lines 197-230): `(None, None, None)` when the
model pickle is missing (an unreadable pickle is folded into `model = none`);
otherwise the model plus whichever scalers exist. -/
def load_ml_model_and_scalers (s : MLStore) : Option Unit × Option Unit × Option Unit :=
  match s.model with
  | none => (none, none, none)
  | some m => (some m, s.scaler_x, s.scaler_y)

/-- `load_ml_model_info` (lines 233-257): the pickle metadata when present,
else the JSON metadata, else `None`. -/
def load_ml_model_info (s : MLStore) : Option MLMeta :=
  match s.meta_pkl with
  | some m => some m
  | none => s.meta_json

/-- `save_ml_model_and_scalers` (lines 260-288): writes the model and the two
scaler pickles and nothing else — its docstring says "(no metadata)" and the
`feature_cols` argument is accepted but never used.  The metadata files are
left exactly as they were. -/
def save_ml_model_and_scalers (s : MLStore) (model scaler_x scaler_y : Unit)
    (feature_cols : List String := []) : MLStore :=
  { s with model := some model, scaler_x := some scaler_x, scaler_y := some scaler_y }

/-- The hourly-GBR file set (`_hourly_ml_paths_for`, lines 293-312): no
metadata files at all. -/
structure HourlyMLStore where
  model : Option Unit
  scaler_x : Option Unit
  scaler_y : Option Unit
deriving DecidableEq, Repr

/-- `load_hourly_ml_model_and_scalers` (lines 315-348). -/
def load_hourly_ml_model_and_scalers (s : HourlyMLStore) :
    Option Unit × Option Unit × Option Unit :=
  match s.model with
  | none => (none, none, none)
  | some m => (some m, s.scaler_x, s.scaler_y)

/-- `save_hourly_ml_model_and_scalers` (lines 351-379). -/
def save_hourly_ml_model_and_scalers (s : HourlyMLStore)
    (model scaler_x scaler_y : Unit) : HourlyMLStore :=
  ⟨some model, some scaler_x, some scaler_y⟩

/-! ### Cache compatibility (`meta_compatible`, forecasting.py lines 377-395) -/

/-- `meta_compatible(meta, current_data_len)` evaluated at instant `now`
(seconds).  `none` metadata (no record, or an empty dict, both falsy) is
incompatible.  A string timestamp is parsed to a datetime in the source (parse
failure returns `False`); the parsed instant is modelled directly.  The age
check rejects `days_old > 7` with `days_old` the floor of the difference in
days; the shape check is skipped for a missing (or zero, falsy) `data_shape`
and rejects a relative drift `> 0.1`. -/
def meta_compatible (meta : Option MLMeta) (current_data_len : ℕ) (now : ℤ) : Bool :=
  match meta with
  | none => false
  | some m =>
    let ageOk : Bool :=
      match m.timestamp with
      | some ts => decide ((now - ts).fdiv 86400 ≤ 7)
      | none => true
    let shapeOk : Bool :=
      match m.data_shape with
      | some ds =>
        if ds = 0 then true
        else decide (|(current_data_len : ℚ) - (ds : ℚ)| / (ds : ℚ) ≤ 1/10)
      | none => true
    ageOk && shapeOk

/-! ### Data acquisition (`forecasting.py` lines 29-167)

`_fetch_binance_klines` catches every transport/parsing failure and returns
`None`; its outcome is therefore an input `live : Option (List Candle)`
(`none` = unavailable, otherwise the fetched candles, which the source
guarantees nonempty).  The fallback CSV is a file that may be absent, and whose
parse requires a `Date` column. -/

/-- The exception types raised by `_load_price_series_from_csv`: a missing file
raises `FileNotFoundError`, a file without a `Date` column raises
`ValueError` — both are the "DataUnavailable" surface of the service. -/
inductive DataError
  | fileNotFound
  | noDateColumn
deriving DecidableEq, Repr

/-- A fallback dataset file: present on disk, with its parsed rows and whether
a `Date` column exists (column-name normalization itself is not modelled). -/
structure CsvFile where
  hasDateColumn : Bool
  rows : List Candle

/-- `_load_price_series_from_csv` (lines 98-139). -/
def load_price_series_from_csv (csv : Option CsvFile) : Except DataError (List Candle) :=
  match csv with
  | none => .error .fileNotFound
  | some f => if f.hasDateColumn then .ok f.rows else .error .noDateColumn

/-- `_load_price_series` (lines 142-167): the live fetch when it returned a
nonempty frame, otherwise the CSV fallback. -/
def load_price_series (live : Option (List Candle)) (csv : Option CsvFile) :
    Except DataError (List Candle) :=
  match live with
  | some df => if 0 < df.length then .ok df else load_price_series_from_csv csv
  | none => load_price_series_from_csv csv

/-! ### The forecast orchestrator (`generate_forecast`, lines 247-549) -/

/-- `get_history_window_days` (lines 17-26). -/
def get_history_window_days (horizon_days : ℕ) : ℕ :=
  if horizon_days ≤ 2 then 2
  else if horizon_days ≤ 7 then 15
  else if horizon_days ≤ 15 then 30
  else max 90 (horizon_days * 3)

/-- `_naive_forecast` (lines 240-244): `latest * (1 + 0.0025*(i+1) + noise_i)`
for `i = 0..horizon-1`; the Gaussian jitter drawn from the RNG is the input
`noise`. -/
def naive_forecast (latest_price : ℚ) (horizon_days : ℕ) (noise : ℕ → ℚ) : List ℚ :=
  (List.range horizon_days).map
    (fun i : ℕ => latest_price * (1 + (25/10000) * ((i : ℚ) + 1) + noise i))

/-- `forecast_df["price"].pct_change().fillna(0)` (line 542): first return is
0, then step-over-step percentage change. -/
def returnsOf : List ℚ → List ℚ
  | [] => []
  | p :: rest => 0 :: List.zipWith (fun prev cur => (cur - prev) / prev) (p :: rest) rest

/-- `series.cumprod()`. -/
def cumprodList : List ℚ → List ℚ
  | [] => []
  | x :: rest => x :: (cumprodList rest).map (fun y => x * y)

/-- `(1 + returns).cumprod() - 1` (line 543): the cumulative-return series of a
forecast price series. -/
def cumulativeOf (prices : List ℚ) : List ℚ :=
  (cumprodList ((returnsOf prices).map (fun r => 1 + r))).map (fun y => y - 1)

/-- Outcomes of the external computations inside one `generate_forecast`
request: whether the sklearn `fit` (and the held-out metric computation)
completes, the test metrics it yields, the inverse-scaled multi-step price
prediction of the cached resp. freshly trained model on the latest feature row
(`none` = that inference raised: corrupt artifact, shape mismatch, missing
`scaler_x`, empty feature frame, …), and the naive-path jitter. -/
structure DailyEnv where
  fit_ok : Bool
  r2_testing : ℚ
  avg_rmse : ℚ
  cachedPredict : Option (List ℚ)
  trainedPredict : Option (List ℚ)
  naiveNoise : ℕ → ℚ

/-- The daily GBR `feature_cols` list (lines 416-422) — note it omits `MA_50`
even though `engineer_ml_features` computes it. -/
def daily_ml_feature_cols : List String :=
  ["Open", "High", "Low", "Close", "Volume", "MA_7", "MA_14", "MA_30",
   "Returns", "Volatility", "Price_Range", "Price_Change",
   "Volume_MA_7", "High_Low_Ratio"]

/-- The retrain step of the daily branch (lines 437-503, after the
enough-data guard): builds the in-memory `info` dict — trained-at timestamp,
`data_shape = len(df_features)`, test R², *average* per-step RMSE, feature
list — and calls `save_ml_model_and_scalers`, which persists model and scalers
but no metadata. -/
def trainDailyModel (featLen : ℕ) (env : DailyEnv) (now : ℤ) (store : MLStore) :
    MLMeta × MLStore :=
  let info : MLMeta :=
    { timestamp := some now, data_shape := some featLen,
      r2_testing := some env.r2_testing, avg_rmse := some env.avg_rmse,
      feature_cols := some daily_ml_feature_cols }
  (info, save_ml_model_and_scalers store () () () daily_ml_feature_cols)

/-- What the `try` block of `generate_forecast` computes: the forecast price
series, the scalar prediction, and the two provenance flags. -/
structure CoreOut where
  forecast : List ℚ
  pred_price : ℚ
  model_info : Option MLMeta
  using_cached_model : Bool

/-- The `except` fallback (lines 532-539): a naive forecast, with
`model_info` / `using_cached_model` left at whatever was assigned before the
exception. -/
def naiveOut (latest : ℚ) (horizon : ℕ) (noise : ℕ → ℚ)
    (info : Option MLMeta) (usc : Bool) : CoreOut :=
  let fc := naive_forecast latest horizon noise
  { forecast := fc, pred_price := fc.getLastD 0,
    model_info := info, using_cached_model := usc }

/-- Offset correction of the gradient-boosted paths (lines 513-517, 676-680):
shift every predicted step by `latest_actual_close - first_predicted_step`. -/
def offsetCorrect (latest : ℚ) (preds : List ℚ) : List ℚ :=
  preds.map (fun x => x + (latest - preds.headD 0))

/-- The cached-artifact acceptance test of line 424: `not force_retrain and
model is not None and scaler_y is not None and compatible` (`scaler_x` is not
checked). -/
def cacheAccepted (store : MLStore) (dfLen : ℕ) (force_retrain : Bool) (now : ℤ) : Bool :=
  !force_retrain && (load_ml_model_and_scalers store).1.isSome &&
    (load_ml_model_and_scalers store).2.2.isSome &&
    meta_compatible (load_ml_model_info store) dfLen now

/-- An inference outcome that lets the success path complete: the model call
returned a nonempty prediction long enough for the `n` future dates of the
forecast frame. -/
def predictUsable (o : Option (List ℚ)) (n : ℕ) : Prop :=
  ∃ p ps, o = some (p :: ps) ∧ n ≤ (p :: ps).length

/-- The daily (gradient-boosted) branch of `generate_forecast`
(lines 366-530), with the surrounding `try/except`.  When the cached artifact
is accepted, the provenance flags are assigned *before* inference, so an
inference failure falls back to naive with the flags already set.  On the
retrain path the guard `len(df_features) < 100` and a `fit` failure raise
before `info` is built (naive with unset flags), while a failure in the final
prediction — including a prediction shorter than the `n_days` the forecast
frame needs — raises after `info` was assigned and the artifact saved. -/
def dailyCore (df : List Candle) (latest_price : ℚ) (store : MLStore) (env : DailyEnv)
    (horizon : ℕ) (force_retrain : Bool) (now : ℤ) : CoreOut × MLStore :=
  let loaded_info := load_ml_model_info store
  let n_days := min horizon 30
  if cacheAccepted store df.length force_retrain now then
    match env.cachedPredict with
    | some (p :: ps) =>
      if n_days ≤ (p :: ps).length then
        let predictions := (offsetCorrect latest_price (p :: ps)).take n_days
        ({ forecast := predictions, pred_price := predictions.getLastD 0,
           model_info := loaded_info, using_cached_model := true }, store)
      else (naiveOut latest_price horizon env.naiveNoise loaded_info true, store)
    | _ => (naiveOut latest_price horizon env.naiveNoise loaded_info true, store)
  else
    let featLen := engineer_ml_features_len df
    if featLen < 100 then (naiveOut latest_price horizon env.naiveNoise none false, store)
    else if !env.fit_ok then (naiveOut latest_price horizon env.naiveNoise none false, store)
    else
      let trained := trainDailyModel featLen env now store
      match env.trainedPredict with
      | some (p :: ps) =>
        if n_days ≤ (p :: ps).length then
          let predictions := (offsetCorrect latest_price (p :: ps)).take n_days
          ({ forecast := predictions, pred_price := predictions.getLastD 0,
             model_info := some trained.1, using_cached_model := false }, trained.2)
        else (naiveOut latest_price horizon env.naiveNoise (some trained.1) false, trained.2)
      | _ => (naiveOut latest_price horizon env.naiveNoise (some trained.1) false, trained.2)

/-- The hourly LSTM branch of `generate_forecast` (`horizon_days ≤ 2`,
lines 265-364).  The keras model, its scalers and the RMSE-based correction
heuristic operate on external artifacts; `lstm` is the branch's adjusted
multi-step price outcome (`future_48_adjusted`), `none` meaning some step
raised (missing model, scaler mismatch, …; an empty prediction raises at
`future_48[0]`).  The branch never assigns `model_info` or
`using_cached_model`. -/
def hourlyLstmCore (latest : ℚ) (lstm : Option (List ℚ)) (horizon : ℕ)
    (noise : ℕ → ℚ) : CoreOut :=
  match lstm with
  | some (p :: ps) =>
    { forecast := p :: ps,
      pred_price := (p :: ps).getD (min (horizon * 24 - 1) ((p :: ps).length - 1)) 0,
      model_info := none, using_cached_model := false }
  | _ => naiveOut latest horizon noise none false

/-- The exceptions that can escape `generate_forecast`: the data errors of the
CSV fallback (raised at line 252, outside the `try`), and the `IndexError`
that `df.iloc[-1]` would raise on an empty fallback dataset. -/
inductive ForecastError
  | data (e : DataError)
  | emptySeries
deriving DecidableEq, Repr

/-- The tuple returned by `generate_forecast` (line 549).  A `none`
`model_info` is rendered as `{}` by `model_info or {}`.  The forecast and
cumulative frames also carry a time index (one step after the last candle)
that no verified claim mentions. -/
structure ForecastResult where
  historical : List (ℤ × ℚ)
  forecast : List ℚ
  cumulative : List ℚ
  pred_price : ℚ
  model_info : Option MLMeta
  using_cached_model : Bool

/-- `df["time"].max()`. -/
def maxTime (df : List Candle) : ℤ := ((df.map Candle.time).max?).getD 0

/-- `generate_forecast` (lines 247-549).  Data acquisition happens outside the
`try` block and is the only failing stage; everything from model loading to
prediction is wrapped by `try/except` falling back to `_naive_forecast`.  The
cumulative-return series is computed after the `try/except`, uniformly for all
paths.  (`clear_model_cache` on `force_retrain` only clears the in-process LRU
cache of the LSTM loader, which the store model reads through transparently.)
The historical window keeps candles within `get_history_window_days` of the
latest timestamp, with `time` measured in days. -/
def generate_forecast (live : Option (List Candle)) (csv : Option CsvFile)
    (store : MLStore) (env : DailyEnv) (lstm : Option (List ℚ))
    (horizon : ℕ) (force_retrain : Bool) (now : ℤ) :
    Except ForecastError (ForecastResult × MLStore) :=
  match load_price_series live csv with
  | .error e => .error (.data e)
  | .ok df =>
    match df.getLast? with
    | none => .error .emptySeries
    | some lastC =>
      let latest_price := lastC.Close
      let cutoff := maxTime df - (get_history_window_days horizon : ℤ)
      let historical := (df.filter (fun c => cutoff ≤ c.time)).map (fun c => (c.time, c.Close))
      let res :=
        if horizon ≤ 2 then (hourlyLstmCore latest_price lstm horizon env.naiveNoise, store)
        else dailyCore df latest_price store env horizon force_retrain now
      .ok ({ historical := historical,
             forecast := res.1.forecast,
             cumulative := cumulativeOf res.1.forecast,
             pred_price := res.1.pred_price,
             model_info := res.1.model_info,
             using_cached_model := res.1.using_cached_model }, res.2)

/-! ### The dedicated 24-step hourly path (`generate_hourly_forecast`,
lines 552-705) -/

/-- External-computation outcomes for one `generate_hourly_forecast` request
(cf. `DailyEnv`). -/
structure HourlyEnv where
  fit_ok : Bool
  cachedPredict : Option (List ℚ)
  trainedPredict : Option (List ℚ)
  naiveNoise : ℕ → ℚ

/-- The `model_info` dict built on hourly retrain (lines 661-665). -/
structure HourlyInfo where
  algorithm : String
  forecast_steps : ℕ
  data_hours : ℕ
deriving DecidableEq, Repr

/-- The tuple returned by `generate_hourly_forecast` (line 705); `none`
`model_info` is the empty dict initialised at line 579. -/
structure HourlyForecastResult where
  historical : List (ℤ × ℚ)
  forecast : List ℚ
  pred_price : ℚ
  model_info : Option HourlyInfo
  using_cached_model : Bool

/-- The `ValueError("Insufficient hourly data…")` raised at line 575, before
the `try` block — the only exception this function lets escape. -/
inductive HourlyError
  | insufficientData
deriving DecidableEq, Repr

/-- The naive hourly fallback (line 695): `latest * (1 + 0.001*i + noise_i)`
for `i = 0..23` (drift starts at 0, unlike the daily naive path). -/
def hourly_naive_forecast (latest : ℚ) (noise : ℕ → ℚ) : List ℚ :=
  (List.range 24).map (fun i : ℕ => latest * (1 + (1/1000) * (i : ℚ) + noise i))

/-- `df["Close"].iloc[-1]`. -/
def lastClose (df : List Candle) : ℚ := (df.map Candle.Close).getLastD 0

/-- The `try/except` body of `generate_hourly_forecast` (lines 606-705),
entered once data acquisition succeeded.  The cached path needs `model`,
`scaler_x` *and* `scaler_y` (line 610) and sets `using_cached_model = True`
before inference; the retrain path guards `len(df_features) < 500`, fits,
saves (no metadata files exist for this key), assigns `model_info`, and only
then predicts.  A prediction whose length differs from the 24 future dates
makes the forecast-frame construction raise, landing in the naive fallback
with the flags already assigned.  The historical window is the last 48
candles. -/
def hourlyBody (df : List Candle) (store : HourlyMLStore) (env : HourlyEnv)
    (force_retrain : Bool) : HourlyForecastResult × HourlyMLStore :=
  let latest_price := lastClose df
  let historical := (df.drop (df.length - 48)).map (fun c => (c.time, c.Close))
  let naive := fun (info : Option HourlyInfo) (usc : Bool) (store' : HourlyMLStore) =>
    let fc := hourly_naive_forecast latest_price env.naiveNoise
    (({ historical := historical, forecast := fc, pred_price := fc.getLastD 0,
        model_info := info, using_cached_model := usc } : HourlyForecastResult), store')
  let success := fun (preds : List ℚ) (info : Option HourlyInfo) (usc : Bool)
      (store' : HourlyMLStore) =>
    let predictions := offsetCorrect latest_price preds
    (({ historical := historical, forecast := predictions,
        pred_price := predictions.getLastD 0,
        model_info := info, using_cached_model := usc } : HourlyForecastResult), store')
  let loaded := load_hourly_ml_model_and_scalers store
  if !force_retrain && loaded.1.isSome && loaded.2.1.isSome && loaded.2.2.isSome then
    match env.cachedPredict with
    | some (p :: ps) =>
      if (p :: ps).length = 24 then success (p :: ps) none true store
      else naive none true store
    | _ => naive none true store
  else
    let featLen := engineer_hourly_features_len df
    if featLen < 500 then naive none false store
    else if !env.fit_ok then naive none false store
    else
      let store' := save_hourly_ml_model_and_scalers store () () ()
      let info : HourlyInfo :=
        { algorithm := "GradientBoostingRegressor", forecast_steps := 24,
          data_hours := featLen }
      match env.trainedPredict with
      | some (p :: ps) =>
        if (p :: ps).length = 24 then success (p :: ps) (some info) false store'
        else naive (some info) false store'
      | _ => naive (some info) false store'

/-- `generate_hourly_forecast` (lines 552-705): fetches hourly klines directly
from the live source — there is no CSV fallback on this path — and raises
`ValueError` when the fetch is unavailable or yields fewer than 200 rows; this
check precedes the `try` block, so it is the only way the function fails. -/
def generate_hourly_forecast (live : Option (List Candle)) (store : HourlyMLStore)
    (env : HourlyEnv) (force_retrain : Bool) :
    Except HourlyError (HourlyForecastResult × HourlyMLStore) :=
  match live with
  | none => .error .insufficientData
  | some df =>
    if df.length < 200 then .error .insufficientData
    else .ok (hourlyBody df store env force_retrain)

/-! ## General lemmas -/

theorem get?_isSome_iff {α : Type} (l : List α) (n : ℕ) :
    (l.get? n).isSome ↔ n < l.length := by
  rw [Option.isSome_iff_ne_none, Ne, List.get?_eq_none]
  omega

theorem optSeq_isSome_iff (l : List (Option ℚ)) :
    (optSeq l).isSome ↔ ∀ o ∈ l, o.isSome := by
  induction l with
  | nil => simp [optSeq]
  | cons o rest ih =>
    cases o with
    | none => simp [optSeq]
    | some x => simp [optSeq, Option.isSome_map, ih]

theorem optSeq_eq_some_length (l : List (Option ℚ)) (r : List ℚ)
    (h : optSeq l = some r) : r.length = l.length := by
  induction l generalizing r with
  | nil => simp [optSeq] at h; simp [← h]
  | cons o rest ih =>
    cases o with
    | none => simp [optSeq] at h
    | some x =>
      simp only [optSeq, Option.map_eq_some'] at h
      obtain ⟨rs, hrs, rfl⟩ := h
      simp [ih rs hrs]

theorem length_filterMap_eq_countP {α β : Type} (f : α → Option β) (l : List α) :
    (l.filterMap f).length = l.countP (fun a => (f a).isSome) := by
  induction l with
  | nil => rfl
  | cons a rest ih =>
    rw [List.filterMap_cons, List.countP_cons]
    cases hfa : f a <;> simp [hfa, ih]

theorem countP_range_le (k n : ℕ) :
    (List.range n).countP (fun i => decide (k ≤ i)) = n - k := by
  induction n with
  | zero => simp
  | succ n ih =>
    rw [List.range_succ, List.countP_append, ih]
    by_cases h : k ≤ n <;> simp [List.countP_cons, h] <;> omega

theorem filterMap_range_eq_map {β : Type} (f : ℕ → Option β) (g : ℕ → β) (n : ℕ)
    (h : ∀ i < n, f i = some (g i)) :
    (List.range n).filterMap f = (List.range n).map g := by
  induction n with
  | zero => rfl
  | succ n ih =>
    rw [List.range_succ, List.filterMap_append, List.map_append,
      ih (fun i hi => h i (by omega))]
    simp [h n (by omega)]

theorem filterMap_range_stop {β : Type} (f : ℕ → Option β) (m : ℕ)
    (h : ∀ i, m ≤ i → f i = none) :
    ∀ n, m ≤ n → (List.range n).filterMap f = (List.range m).filterMap f := by
  intro n
  induction n with
  | zero =>
    intro hmn
    have hm : m = 0 := by omega
    rw [hm]
  | succ n ih =>
    intro hmn
    rcases Nat.lt_or_ge n m with hn | hn
    · have hm : m = n + 1 := by omega
      rw [hm]
    · rw [List.range_succ, List.filterMap_append, ih hn]
      simp [h n hn]

/-! ## Claim theorems -/

/-- Claim C4: `meta_compatible` is a function of the metadata's trained-at
timestamp and `data_shape` together with the current data length and the
current instant; a timestamp 8 days in the past is incompatible regardless of
the data shape, and a data-shape drift of exactly 11% is incompatible even
with a fresh (≤ 7 days old) timestamp. -/
theorem meta_compatible_stale_and_drift_reject :
    (∀ (m : MLMeta) (len : ℕ) (now ts : ℤ),
        m.timestamp = some ts → now - ts = 8 * 86400 →
        meta_compatible (some m) len now = false)
  ∧ (∀ (m : MLMeta) (len ds : ℕ) (now ts : ℤ),
        m.timestamp = some ts → (now - ts).fdiv 86400 ≤ 7 →
        m.data_shape = some ds → ds ≠ 0 →
        |(len : ℚ) - (ds : ℚ)| / (ds : ℚ) = 11/100 →
        meta_compatible (some m) len now = false)
  ∧ (∀ (m₁ m₂ : MLMeta) (len : ℕ) (now : ℤ),
        m₁.timestamp = m₂.timestamp → m₁.data_shape = m₂.data_shape →
        meta_compatible (some m₁) len now = meta_compatible (some m₂) len now) := by
  refine ⟨?_, ?_, ?_⟩
  · intro m len now ts hts hage
    have h8 : now - ts = (691200 : ℤ) := by omega
    simp only [meta_compatible, hts, h8]
    norm_num [Int.fdiv]
  · intro m len ds now ts hts hage hds hds0 hdrift
    simp only [meta_compatible, hts, hds, if_neg hds0, hdrift]
    simp [hage]
    norm_num
  · intro m₁ m₂ len now h1 h2
    simp only [meta_compatible, h1, h2]

/-- Witness for C4 at concrete metadata: a record trained at instant 0 checked
8 days later is rejected, and a record with `data_shape = 100` checked against
111 current rows (11% drift) at the training instant is rejected. -/
theorem meta_compatible_stale_and_drift_reject_witness :
    meta_compatible (some ⟨some 0, none, none, none, none⟩) 5 (8 * 86400) = false
  ∧ meta_compatible (some ⟨some 0, some 100, none, none, none⟩) 111 0 = false :=
  ⟨meta_compatible_stale_and_drift_reject.1 _ 5 (8 * 86400) 0 rfl (by decide),
   meta_compatible_stale_and_drift_reject.2.1 _ 111 100 0 0 rfl (by decide) rfl
     (by decide) (by norm_num)⟩

/-- Claim C3, counterexample: saving a freshly trained daily GBR artifact
persists no metadata at all, so a later `load_ml_model_info` for that key
returns `None` — not a record carrying the post-fit metrics. -/
theorem save_ml_persists_no_metadata_counterexample :
    load_ml_model_info
      (save_ml_model_and_scalers MLStore.empty () () () daily_ml_feature_cols) = none := rfl

/-- Claim C3, amended: on a daily retrain the trained-at timestamp, training
row count, feature list, test R² and the *average* per-step RMSE are attached
to the in-memory `info` dict returned as `model_info` for that request, but
`save_ml_model_and_scalers` persists only the model and scaler blobs: the
metadata files are untouched, so a later `load_ml_model_info` sees exactly
what was there before the save (nothing, for a fresh key). -/
theorem trainDailyModel_info_in_memory_only :
    (∀ (store : MLStore) (m sx sy : Unit) (fc : List String),
        load_ml_model_info (save_ml_model_and_scalers store m sx sy fc) =
          load_ml_model_info store)
  ∧ (∀ (featLen : ℕ) (env : DailyEnv) (now : ℤ) (store : MLStore),
        (trainDailyModel featLen env now store).1 =
          { timestamp := some now, data_shape := some featLen,
            r2_testing := some env.r2_testing, avg_rmse := some env.avg_rmse,
            feature_cols := some daily_ml_feature_cols }
        ∧ (trainDailyModel featLen env now store).2.meta_pkl = store.meta_pkl
        ∧ (trainDailyModel featLen env now store).2.meta_json = store.meta_json) := by
  constructor
  · intro store m sx sy fc
    cases store
    rfl
  · intro featLen env now store
    exact ⟨rfl, rfl, rfl⟩

/-- Claim C10: `generate_hourly_forecast` raises (a `ValueError`) exactly when
the hourly kline fetch is unavailable or yields fewer than 200 rows; once data
acquisition succeeded the function always returns a result (its model path and
naive fallback live inside the `try`), and no CSV source appears anywhere on
this path (the function's only data input is the live fetch). -/
theorem generate_hourly_forecast_data_guard :
    ∀ (live : Option (List Candle)) (store : HourlyMLStore) (env : HourlyEnv) (f : Bool),
      (live = none →
        generate_hourly_forecast live store env f = .error .insufficientData)
    ∧ (∀ df, live = some df → df.length < 200 →
        generate_hourly_forecast live store env f = .error .insufficientData)
    ∧ (∀ df, live = some df → 200 ≤ df.length →
        generate_hourly_forecast live store env f = .ok (hourlyBody df store env f)) := by
  intro live store env f
  refine ⟨?_, ?_, ?_⟩
  · rintro rfl
    rfl
  · rintro df rfl hlen
    simp [generate_hourly_forecast, hlen]
  · rintro df rfl hlen
    simp [generate_hourly_forecast, Nat.not_lt.mpr hlen]

/-- Witness for C10: no data, 100 rows, and 200 rows of a constant candle. -/
theorem generate_hourly_forecast_data_guard_witness :
    (generate_hourly_forecast none ⟨none, none, none⟩
        ⟨true, none, none, fun _ => 0⟩ false = .error .insufficientData)
  ∧ (generate_hourly_forecast (some (List.replicate 100 ⟨0, 1, 1, 1, 1, 1⟩))
        ⟨none, none, none⟩ ⟨true, none, none, fun _ => 0⟩ false =
        .error .insufficientData)
  ∧ (generate_hourly_forecast (some (List.replicate 200 ⟨0, 1, 1, 1, 1, 1⟩))
        ⟨none, none, none⟩ ⟨true, none, none, fun _ => 0⟩ false =
        .ok (hourlyBody (List.replicate 200 ⟨0, 1, 1, 1, 1, 1⟩)
          ⟨none, none, none⟩ ⟨true, none, none, fun _ => 0⟩ false)) :=
  ⟨(generate_hourly_forecast_data_guard none _ _ false).1 rfl,
   (generate_hourly_forecast_data_guard _ _ _ false).2.1 _ rfl
     (by rw [List.length_replicate]; norm_num),
   (generate_hourly_forecast_data_guard _ _ _ false).2.2 _ rfl
     (by rw [List.length_replicate])⟩

theorem load_price_series_error_iff (live : Option (List Candle)) (csv : Option CsvFile) :
    (∃ e, load_price_series live csv = .error e) ↔
      ((live = none ∨ live = some []) ∧
       (csv = none ∨ ∃ f, csv = some f ∧ f.hasDateColumn = false)) := by
  have hcsvpart : (∃ e, load_price_series_from_csv csv = .error e) ↔
      (csv = none ∨ ∃ f, csv = some f ∧ f.hasDateColumn = false) := by
    rcases csv with _ | f
    · simp [load_price_series_from_csv]
    · by_cases hd : f.hasDateColumn <;> simp [load_price_series_from_csv, hd]
  rcases live with _ | df
  · simpa [load_price_series] using hcsvpart
  · by_cases hpos : 0 < df.length
    · have hne : df ≠ [] := by
        intro h
        rw [h] at hpos
        simp at hpos
      simp [load_price_series, hpos, hne]
    · have hnil : df = [] := by
        rcases df with _ | ⟨c, rest⟩
        · rfl
        · simp at hpos
      subst hnil
      simpa [load_price_series] using hcsvpart

theorem load_price_series_ok_nonempty (live : Option (List Candle)) (csv : Option CsvFile)
    (hcsv : ∀ f, csv = some f → f.rows ≠ []) (df : List Candle)
    (hload : load_price_series live csv = .ok df) : df ≠ [] := by
  have hfall : load_price_series_from_csv csv = .ok df → df ≠ [] := by
    intro h
    rcases csv with _ | f
    · simp [load_price_series_from_csv] at h
    · by_cases hd : f.hasDateColumn
      · simp [load_price_series_from_csv, hd] at h
        rw [← h]
        exact hcsv f rfl
      · simp [load_price_series_from_csv, hd] at h
  rcases live with _ | dfl
  · exact hfall (by simpa [load_price_series] using hload)
  · by_cases hpos : 0 < dfl.length
    · simp [load_price_series, hpos] at hload
      subst hload
      intro h
      rw [h] at hpos
      simp at hpos
    · simp [load_price_series, hpos] at hload
      exact hfall hload

theorem generate_forecast_of_load_error (live : Option (List Candle)) (csv : Option CsvFile)
    (store : MLStore) (env : DailyEnv) (lstm : Option (List ℚ))
    (horizon : ℕ) (force : Bool) (now : ℤ) (e : DataError)
    (hload : load_price_series live csv = .error e) :
    generate_forecast live csv store env lstm horizon force now = .error (.data e) := by
  simp [generate_forecast, hload]

theorem generate_forecast_of_load_ok (live : Option (List Candle)) (csv : Option CsvFile)
    (store : MLStore) (env : DailyEnv) (lstm : Option (List ℚ))
    (horizon : ℕ) (force : Bool) (now : ℤ) (df : List Candle) (c : Candle)
    (hload : load_price_series live csv = .ok df) (hc : df.getLast? = some c) :
    ∃ r, generate_forecast live csv store env lstm horizon force now = .ok r := by
  rcases hg : generate_forecast live csv store env lstm horizon force now with err | r
  · exfalso
    simp only [generate_forecast, hload, hc] at hg
    exact Except.noConfusion hg
  · exact ⟨r, rfl⟩

/-- Claim C2: `generate_forecast` surfaces a data error — one of the
`DataUnavailable`-style exceptions of the CSV fallback — exactly when neither
the live fetch nor the fallback dataset is usable, and (for nonempty fallback
datasets) this is its only failure: every error it surfaces is of that data
type, and in every other case a forecast result is produced. -/
theorem generate_forecast_fails_only_on_data_unavailable :
    ∀ (live : Option (List Candle)) (csv : Option CsvFile) (store : MLStore)
      (env : DailyEnv) (lstm : Option (List ℚ)) (horizon : ℕ) (force : Bool) (now : ℤ),
      (∀ f, csv = some f → f.rows ≠ []) →
      ((∃ e, generate_forecast live csv store env lstm horizon force now = .error (.data e)) ↔
        ((live = none ∨ live = some []) ∧
         (csv = none ∨ ∃ f, csv = some f ∧ f.hasDateColumn = false)))
    ∧ (∀ err, generate_forecast live csv store env lstm horizon force now = .error err →
        ∃ e, err = ForecastError.data e)
    ∧ (¬((live = none ∨ live = some []) ∧
         (csv = none ∨ ∃ f, csv = some f ∧ f.hasDateColumn = false)) →
        ∃ r, generate_forecast live csv store env lstm horizon force now = .ok r) := by
  intro live csv store env lstm horizon force now hcsv
  have hokcase : ∀ df, load_price_series live csv = .ok df →
      ∃ r, generate_forecast live csv store env lstm horizon force now = .ok r := by
    intro df hload
    have hne := load_price_series_ok_nonempty live csv hcsv df hload
    rcases hlast : df.getLast? with _ | c
    · exact absurd (List.getLast?_eq_none_iff.mp hlast) hne
    · exact generate_forecast_of_load_ok live csv store env lstm horizon force now df c hload hlast
  refine ⟨⟨?_, ?_⟩, ?_, ?_⟩
  · rintro ⟨e, he⟩
    rcases hl : load_price_series live csv with e' | df
    · exact (load_price_series_error_iff live csv).mp ⟨e', hl⟩
    · obtain ⟨r, hr⟩ := hokcase df hl
      rw [he] at hr
      exact absurd hr (by simp)
  · intro hU
    obtain ⟨e, he⟩ := (load_price_series_error_iff live csv).mpr hU
    exact ⟨e, generate_forecast_of_load_error live csv store env lstm horizon force now e he⟩
  · intro err herr
    rcases hl : load_price_series live csv with e' | df
    · have := generate_forecast_of_load_error live csv store env lstm horizon force now e' hl
      rw [herr] at this
      refine ⟨e', ?_⟩
      injection this with h
    · obtain ⟨r, hr⟩ := hokcase df hl
      rw [herr] at hr
      exact absurd hr (by simp)
  · intro hU
    rcases hl : load_price_series live csv with e' | df
    · exact absurd ((load_price_series_error_iff live csv).mp ⟨e', hl⟩) hU
    · exact hokcase df hl

/-- Witness for C2 at concrete inputs: with no live data and no fallback file
the request surfaces a data error, and with live data present it returns a
result. -/
theorem generate_forecast_fails_only_on_data_unavailable_witness :
    (∃ e, generate_forecast none none MLStore.empty
        ⟨true, 0, 0, none, none, fun _ => 0⟩ none 7 false 0 = .error (.data e))
  ∧ (∃ r, generate_forecast (some [⟨0, 1, 1, 1, 1, 1⟩]) none MLStore.empty
        ⟨true, 0, 0, none, none, fun _ => 0⟩ none 7 false 0 = .ok r) :=
  ⟨((generate_forecast_fails_only_on_data_unavailable none none MLStore.empty
      ⟨true, 0, 0, none, none, fun _ => 0⟩ none 7 false 0
      (fun f h => by simp at h)).1).mpr ⟨Or.inl rfl, Or.inl rfl⟩,
   (generate_forecast_fails_only_on_data_unavailable (some [⟨0, 1, 1, 1, 1, 1⟩]) none
      MLStore.empty ⟨true, 0, 0, none, none, fun _ => 0⟩ none 7 false 0
      (fun f h => by simp at h)).2.2 (by simp)⟩

theorem length_cumprodList (xs : List ℚ) : (cumprodList xs).length = xs.length := by
  induction xs with
  | nil => rfl
  | cons x rest ih => simp [cumprodList, ih]

theorem cumprodList_get? (xs : List ℚ) (i : ℕ) (h : i < xs.length) :
    (cumprodList xs).get? i = some ((xs.take (i + 1)).prod) := by
  induction xs generalizing i with
  | nil => simp at h
  | cons x rest ih =>
    cases i with
    | zero => simp [cumprodList]
    | succ n =>
      have hn : n < rest.length := by simpa using h
      simp only [cumprodList, List.get?_cons_succ, List.get?_map, ih n hn,
        Option.map_some', List.take_succ_cons, List.prod_cons]

theorem length_returnsOf (ps : List ℚ) : (returnsOf ps).length = ps.length := by
  cases ps with
  | nil => rfl
  | cons p rest => simp [returnsOf]

theorem returnsOf_cons (p : ℚ) (rest : List ℚ) :
    returnsOf (p :: rest) =
      0 :: List.zipWith (fun prev cur => (cur - prev) / prev) (p :: rest) rest := rfl

theorem cumulativeOf_spec (ps : List ℚ) (hne : ps ≠ []) :
    (cumulativeOf ps).head? = some 0 ∧
    ∀ i, i < (cumulativeOf ps).length →
      (cumulativeOf ps).get? i =
        some (((((returnsOf ps).drop 1).take i).map (fun x => 1 + x)).prod - 1) := by
  obtain ⟨p, rest, rfl⟩ : ∃ p rest, ps = p :: rest := by
    rcases ps with _ | ⟨p, rest⟩
    · exact absurd rfl hne
    · exact ⟨p, rest, rfl⟩
  constructor
  · show (cumulativeOf (p :: rest)).head? = some 0
    simp [cumulativeOf, returnsOf_cons, cumprodList]
  · intro i hi
    have hi' : i < ((returnsOf (p :: rest)).map (fun x => 1 + x)).length := by
      simpa [cumulativeOf, length_cumprodList] using hi
    have hmain : (cumulativeOf (p :: rest)).get? i =
        some ((((returnsOf (p :: rest)).map (fun x => 1 + x)).take (i + 1)).prod - 1) := by
      simp only [cumulativeOf, List.get?_map, cumprodList_get? _ i hi', Option.map_some']
    rw [hmain]
    congr 2
    rw [returnsOf_cons]
    simp only [List.map_cons, List.take_succ_cons, List.prod_cons, List.drop_succ_cons,
      List.drop_zero, ← List.map_take]
    rw [show (1 : ℚ) + 0 = 1 by norm_num, one_mul]

theorem naive_forecast_ne_nil (latest : ℚ) (horizon : ℕ) (noise : ℕ → ℚ)
    (h : 1 ≤ horizon) : naive_forecast latest horizon noise ≠ [] := by
  simp only [naive_forecast, Ne, List.map_eq_nil_iff, List.range_eq_nil]
  omega

theorem hourlyLstmCore_forecast_ne_nil (latest : ℚ) (lstm : Option (List ℚ))
    (horizon : ℕ) (noise : ℕ → ℚ) (h : 1 ≤ horizon) :
    (hourlyLstmCore latest lstm horizon noise).forecast ≠ [] := by
  rcases lstm with _ | l
  · exact naive_forecast_ne_nil latest horizon noise h
  · rcases l with _ | ⟨p, ps⟩
    · exact naive_forecast_ne_nil latest horizon noise h
    · simp [hourlyLstmCore]

theorem dailyCore_forecast_ne_nil (df : List Candle) (latest : ℚ) (store : MLStore)
    (env : DailyEnv) (horizon : ℕ) (force : Bool) (now : ℤ) (h : 1 ≤ horizon) :
    (dailyCore df latest store env horizon force now).1.forecast ≠ [] := by
  have hnaive := naive_forecast_ne_nil latest horizon env.naiveNoise h
  have htake : ∀ p : ℚ, ∀ ps : List ℚ,
      ((offsetCorrect latest (p :: ps)).take (min horizon 30)) ≠ [] := by
    intro p ps
    refine List.ne_nil_of_length_pos ?_
    rw [List.length_take]
    simp only [offsetCorrect, List.length_map, List.length_cons]
    omega
  simp only [dailyCore]
  split
  · split
    · split
      · exact htake _ _
      · exact hnaive
    · exact hnaive
  · split
    · exact hnaive
    · split
      · exact hnaive
      · split
        · split
          · exact htake _ _
          · exact hnaive
        · exact hnaive

/-- Claim C8: for every result `generate_forecast` returns, the
cumulative-return series starts at 0 and its `i`-th entry is
`∏ (1 + return_j) - 1` over `j = 1..i`, where `return_j` is the forecast
series' step-over-step percentage change. -/
theorem generate_forecast_cumulative_returns :
    ∀ (live : Option (List Candle)) (csv : Option CsvFile) (store : MLStore)
      (env : DailyEnv) (lstm : Option (List ℚ)) (horizon : ℕ) (force : Bool) (now : ℤ)
      (r : ForecastResult) (store' : MLStore),
      generate_forecast live csv store env lstm horizon force now = .ok (r, store') →
      1 ≤ horizon →
      r.cumulative.head? = some 0 ∧
      ∀ i, i < r.cumulative.length →
        r.cumulative.get? i =
          some (((((returnsOf r.forecast).drop 1).take i).map (fun x => 1 + x)).prod - 1) := by
  intro live csv store env lstm horizon force now r store' hgf hh
  rcases hl : load_price_series live csv with e | df
  · rw [generate_forecast_of_load_error live csv store env lstm horizon force now e hl] at hgf
    exact Except.noConfusion hgf
  · rcases hlast : df.getLast? with _ | c
    · simp only [generate_forecast, hl, hlast] at hgf
      exact Except.noConfusion hgf
    · simp only [generate_forecast, hl, hlast] at hgf
      injection hgf with hpair
      rw [Prod.mk.injEq] at hpair
      obtain ⟨h1, h2⟩ := hpair
      subst h1
      by_cases hb : horizon ≤ 2
      · simp only [if_pos hb]
        exact cumulativeOf_spec _
          (hourlyLstmCore_forecast_ne_nil c.Close lstm horizon env.naiveNoise hh)
      · simp only [if_neg hb]
        exact cumulativeOf_spec _
          (dailyCore_forecast_ne_nil df c.Close store env horizon force now hh)

/-- Witness for C8: a one-candle live series with an empty store takes the
naive daily path; the cumulative series of the returned forecast starts at
0. -/
theorem generate_forecast_cumulative_returns_witness :
    ∃ (r : ForecastResult) (store' : MLStore),
      generate_forecast (some [⟨0, 1, 1, 1, 1, 1⟩]) none MLStore.empty
        ⟨true, 0, 0, none, none, fun _ => 0⟩ none 7 false 0 = .ok (r, store')
      ∧ r.cumulative.head? = some 0 := by
  refine ⟨_, _, rfl, ?_⟩
  exact (generate_forecast_cumulative_returns (some [⟨0, 1, 1, 1, 1, 1⟩]) none MLStore.empty
    ⟨true, 0, 0, none, none, fun _ => 0⟩ none 7 false 0 _ _ rfl (by norm_num)).1

theorem optSeq_eq_some_map (l : List (Option ℚ)) (h : ∀ o ∈ l, o.isSome) :
    optSeq l = some (l.map (fun o => o.getD 0)) := by
  induction l with
  | nil => rfl
  | cons o rest ih =>
    have ho : o.isSome := h o (by simp)
    obtain ⟨x, rfl⟩ := Option.isSome_iff_exists.mp ho
    simp only [optSeq, ih (fun o' ho' => h o' (by simp [ho'])), Option.map_some',
      List.map_cons, Option.getD_some]

theorem optSeq_eq_none_of_mem (l : List (Option ℚ)) (h : none ∈ l) :
    optSeq l = none := by
  have : ¬ (optSeq l).isSome := by
    rw [optSeq_isSome_iff]
    intro hall
    simpa using hall none h
  simpa [Option.not_isSome_iff_eq_none] using this

theorem getD_map_range {β : Type} (g : ℕ → β) (m i : ℕ) (d : β) (h : i < m) :
    ((List.range m).map g).getD i d = g i := by
  rw [List.getD_eq_get?, List.get?_map, List.get?_range h]
  rfl

theorem targetRow_eq_some (closes : List ℚ) (N i : ℕ)
    (h : ∀ k, k < N → i + (k + 1) < closes.length) :
    targetRow closes N i =
      some ((List.range N).map (fun k => closes.getD (i + (k + 1)) 0)) := by
  rw [targetRow, optSeq_eq_some_map]
  · congr 1
    rw [List.map_map]
    refine List.map_congr_left ?_
    intro k hk
    simp only [Function.comp_apply, List.getD_eq_get?]
  · intro o ho
    simp only [List.mem_map, List.mem_range] at ho
    obtain ⟨k, hk, rfl⟩ := ho
    rw [get?_isSome_iff]
    exact h k hk

theorem targetRow_eq_none (closes : List ℚ) (N i : ℕ) (hN : 1 ≤ N)
    (h : closes.length ≤ i + N) : targetRow closes N i = none := by
  refine optSeq_eq_none_of_mem _ ?_
  simp only [List.mem_map, List.mem_range]
  refine ⟨N - 1, by omega, ?_⟩
  rw [List.get?_eq_none]
  omega

theorem multiTargetMatrix_eq (closes : List ℚ) (N : ℕ) :
    multiTargetMatrix closes N =
      (List.range (closes.length - N)).map
        (fun i => (List.range N).map (fun k => closes.getD (i + (k + 1)) 0)) := by
  rcases Nat.eq_zero_or_pos N with hN | hN
  · subst hN
    rw [multiTargetMatrix,
      filterMap_range_eq_map (targetRow closes 0)
        (fun i => (List.range 0).map (fun k => closes.getD (i + (k + 1)) 0))
        closes.length (fun i _ => rfl), Nat.sub_zero]
  · rw [multiTargetMatrix,
      filterMap_range_stop (targetRow closes N) (closes.length - N)
        (fun i hi => targetRow_eq_none closes N i hN (by omega))
        closes.length (Nat.sub_le _ _),
      filterMap_range_eq_map _ _ _
        (fun i hi => targetRow_eq_some closes N i (fun k hk => by omega))]

/-- Claim C6: the multi-step target frame never leaks future information: the
matrix keeps exactly the first `len - N` rows (every row whose some horizon
`i + k` would run past the series end is dropped), and the `k`-th target
column at surviving row `i` equals the close at row `i + k`. -/
theorem multiTargetMatrix_no_lookahead (closes : List ℚ) (N : ℕ) :
    (multiTargetMatrix closes N).length = closes.length - N
  ∧ (∀ i k, i + N < closes.length → 1 ≤ k → k ≤ N →
      ((multiTargetMatrix closes N).getD i []).getD (k - 1) 0 = closes.getD (i + k) 0)
  ∧ (∀ i, closes.length - N ≤ i → (multiTargetMatrix closes N).get? i = none) := by
  refine ⟨?_, ?_, ?_⟩
  · rw [multiTargetMatrix_eq]
    simp
  · intro i k hik hk1 hkN
    rw [multiTargetMatrix_eq, getD_map_range _ _ _ _ (by omega),
      getD_map_range _ _ _ _ (by omega)]
    congr 1
    omega
  · intro i hi
    rw [multiTargetMatrix_eq, List.get?_eq_none]
    simp only [List.length_map, List.length_range]
    omega

/-- Witness for C6 on the series `[1, 2, 3, 4, 5]` with `N = 2`: three rows
survive, the first target of row 0 is the close at row 1, and row 3 (which
would need close at row 5) is dropped. -/
theorem multiTargetMatrix_no_lookahead_witness :
    (multiTargetMatrix [1, 2, 3, 4, 5] 2).length = 3
  ∧ ((multiTargetMatrix [1, 2, 3, 4, 5] 2).getD 0 []).getD 0 0 = (2 : ℚ)
  ∧ (multiTargetMatrix [1, 2, 3, 4, 5] 2).get? 3 = none :=
  ⟨(multiTargetMatrix_no_lookahead [1, 2, 3, 4, 5] 2).1,
   (multiTargetMatrix_no_lookahead [1, 2, 3, 4, 5] 2).2.1 0 1 (by norm_num) (by norm_num)
     (by norm_num),
   (multiTargetMatrix_no_lookahead [1, 2, 3, 4, 5] 2).2.2 3 (by norm_num)⟩

theorem colOpen_isSome_iff (df : List Candle) (i : ℕ) :
    (colOpen df i).isSome ↔ i < df.length := by
  rw [colOpen, Option.isSome_map', get?_isSome_iff]

theorem colHigh_isSome_iff (df : List Candle) (i : ℕ) :
    (colHigh df i).isSome ↔ i < df.length := by
  rw [colHigh, Option.isSome_map', get?_isSome_iff]

theorem colLow_isSome_iff (df : List Candle) (i : ℕ) :
    (colLow df i).isSome ↔ i < df.length := by
  rw [colLow, Option.isSome_map', get?_isSome_iff]

theorem colClose_isSome_iff (df : List Candle) (i : ℕ) :
    (colClose df i).isSome ↔ i < df.length := by
  rw [colClose, Option.isSome_map', get?_isSome_iff]

theorem colVolume_isSome_iff (df : List Candle) (i : ℕ) :
    (colVolume df i).isSome ↔ i < df.length := by
  rw [colVolume, Option.isSome_map', get?_isSome_iff]

theorem colPriceRange_isSome_iff (df : List Candle) (i : ℕ) :
    (colPriceRange df i).isSome ↔ i < df.length := by
  rw [colPriceRange, Option.isSome_map', get?_isSome_iff]

theorem colPriceChange_isSome_iff (df : List Candle) (i : ℕ) :
    (colPriceChange df i).isSome ↔ i < df.length := by
  rw [colPriceChange, Option.isSome_map', get?_isSome_iff]

theorem colHighLowRatio_isSome_iff (df : List Candle) (i : ℕ) :
    (colHighLowRatio df i).isSome ↔ i < df.length := by
  rw [colHighLowRatio, Option.isSome_map', get?_isSome_iff]

theorem rollingApply_isSome_iff (col : ℕ → Option ℚ) (w : ℕ) (f : List ℚ → ℚ) (i : ℕ) :
    (rollingApply col w f i).isSome ↔
      (w ≤ i + 1 ∧ ∀ j < w, (col (i + 1 - w + j)).isSome) := by
  rw [rollingApply]
  by_cases h : w ≤ i + 1
  · rw [if_pos h, Option.isSome_map', optSeq_isSome_iff]
    simp only [rollWindow, List.mem_map, List.mem_range, forall_exists_index, and_imp,
      forall_apply_eq_imp_iff₂]
    exact ⟨fun hall => ⟨h, hall⟩, fun hall => hall.2⟩
  · rw [if_neg h]
    simp [h]

/-- A rolling aggregate over an always-defined column (`Close`, `Volume`) is
defined exactly once the window fits inside the frame. -/
theorem rollingApply_base_isSome_iff {col : ℕ → Option ℚ} {n : ℕ}
    (hcol : ∀ j, (col j).isSome ↔ j < n) (w : ℕ) (f : List ℚ → ℚ) (i : ℕ)
    (hw : 1 ≤ w) : (rollingApply col w f i).isSome ↔ (w ≤ i + 1 ∧ i < n) := by
  rw [rollingApply_isSome_iff]
  constructor
  · rintro ⟨h1, h2⟩
    have := (hcol _).mp (h2 (w - 1) (by omega))
    exact ⟨h1, by omega⟩
  · rintro ⟨h1, h2⟩
    refine ⟨h1, fun j hj => (hcol _).mpr (by omega)⟩

theorem colMA_isSome_iff (df : List Candle) (w i : ℕ) (hw : 1 ≤ w) :
    (colMA df w i).isSome ↔ (w ≤ i + 1 ∧ i < df.length) :=
  rollingApply_base_isSome_iff (colClose_isSome_iff df) w listMean i hw

theorem colVolumeMA_isSome_iff (df : List Candle) (w i : ℕ) (hw : 1 ≤ w) :
    (colVolumeMA df w i).isSome ↔ (w ≤ i + 1 ∧ i < df.length) :=
  rollingApply_base_isSome_iff (colVolume_isSome_iff df) w listMean i hw

theorem colReturns_isSome_iff (df : List Candle) (i : ℕ) :
    (colReturns df i).isSome ↔ (1 ≤ i ∧ i < df.length) := by
  by_cases hi : i = 0
  · simp [colReturns, hi]
  · have hp := colClose_isSome_iff df (i - 1)
    have hc := colClose_isSome_iff df i
    simp only [colReturns, if_neg hi]
    rcases hcp : colClose df (i - 1) with _ | vp <;> rcases hcc : colClose df i with _ | vc <;>
      rw [hcp] at hp <;> rw [hcc] at hc <;> simp at hp hc ⊢ <;> omega

/-- A rolling aggregate over the `Returns` column (defined from row 1 on) is
defined exactly from row `w` on: the window must avoid the leading NaN. -/
theorem colVolatility_isSome_iff (df : List Candle) (w i : ℕ) (hw : 1 ≤ w) :
    (colVolatility df w i).isSome ↔ (w ≤ i ∧ i < df.length) := by
  rw [colVolatility, rollingApply_isSome_iff]
  constructor
  · rintro ⟨h1, h2⟩
    have h0 := (colReturns_isSome_iff df _).mp (h2 0 (by omega))
    have hl := (colReturns_isSome_iff df _).mp (h2 (w - 1) (by omega))
    exact ⟨by omega, by omega⟩
  · rintro ⟨h1, h2⟩
    refine ⟨by omega, fun j hj => (colReturns_isSome_iff df _).mpr (by omega)⟩

theorem hourlyRow_isSome_iff (df : List Candle) (i : ℕ) :
    (optSeq (hourlyFeatureRow df i)).isSome ↔ (167 ≤ i ∧ i < df.length) := by
  rw [optSeq_isSome_iff, hourlyFeatureRow]
  simp only [List.forall_mem_cons, List.not_mem_nil, false_implies, implies_true, and_true,
    colOpen_isSome_iff, colHigh_isSome_iff, colLow_isSome_iff, colClose_isSome_iff,
    colVolume_isSome_iff, colMA_isSome_iff df 12 i (by norm_num),
    colMA_isSome_iff df 24 i (by norm_num), colMA_isSome_iff df 168 i (by norm_num),
    colReturns_isSome_iff, colVolatility_isSome_iff df 12 i (by norm_num),
    colPriceRange_isSome_iff, colPriceChange_isSome_iff]
  omega

theorem dailyRow_isSome_iff (df : List Candle) (i : ℕ) :
    (optSeq (dailyFeatureRow df i)).isSome ↔ (49 ≤ i ∧ i < df.length) := by
  rw [optSeq_isSome_iff, dailyFeatureRow]
  simp only [List.forall_mem_cons, List.not_mem_nil, false_implies, implies_true, and_true,
    colOpen_isSome_iff, colHigh_isSome_iff, colLow_isSome_iff, colClose_isSome_iff,
    colVolume_isSome_iff, colMA_isSome_iff df 7 i (by norm_num),
    colMA_isSome_iff df 14 i (by norm_num), colMA_isSome_iff df 30 i (by norm_num),
    colMA_isSome_iff df 50 i (by norm_num), colReturns_isSome_iff,
    colVolatility_isSome_iff df 7 i (by norm_num),
    colPriceRange_isSome_iff, colPriceChange_isSome_iff,
    colVolumeMA_isSome_iff df 7 i (by norm_num), colHighLowRatio_isSome_iff]
  omega

theorem filterMap_row_length (df : List Candle) (row : ℕ → List (Option ℚ)) (k : ℕ)
    (hk : ∀ i, (row i).length = k) :
    ∀ r ∈ (List.range df.length).filterMap (fun i => optSeq (row i)), r.length = k := by
  intro r hr
  rw [List.mem_filterMap] at hr
  obtain ⟨i, _, hopt⟩ := hr
  rw [optSeq_eq_some_length _ _ hopt, hk]

theorem countP_rows (df : List Candle) (row : ℕ → List (Option ℚ)) (k : ℕ)
    (hrow : ∀ i, (optSeq (row i)).isSome ↔ (k ≤ i ∧ i < df.length)) :
    ((List.range df.length).filterMap (fun i => optSeq (row i))).length = df.length - k := by
  have hcong : ∀ i ∈ List.range df.length,
      ((fun i => (optSeq (row i)).isSome) i = true ↔ (fun i => decide (k ≤ i)) i = true) := by
    intro i hi
    rw [List.mem_range] at hi
    simp only [hrow i, decide_eq_true_iff]
    omega
  rw [length_filterMap_eq_countP, List.countP_congr hcong, countP_range_le k df.length]

/-- Claim C5: `_prepare_feature_matrix` emits exactly `n - warmup` fully
defined feature rows, where the warm-up is the `window - 1` leading rows on
which the longest rolling mean is undefined — 167 rows for the 168-sample MA
of the hourly schema, 49 rows for the 50-sample MA of the daily schema — and
each emitted row carries all 12 (hourly) resp. 15 (daily) feature values.
Positive prices keep the division-based columns (`Returns`,
`High_Low_Ratio`) inside the domain the embedding models. -/
theorem prepare_feature_matrix_row_counts :
    ∀ df : List Candle,
      ((∀ c ∈ df, 0 < c.Close) → 169 ≤ df.length →
        (prepare_feature_matrix_hourly df).length = df.length - 167
        ∧ ∀ r ∈ prepare_feature_matrix_hourly df, r.length = 12)
    ∧ ((∀ c ∈ df, 0 < c.Close) → (∀ c ∈ df, 0 < c.Low) → 51 ≤ df.length →
        (prepare_feature_matrix_daily df).length = df.length - 49
        ∧ ∀ r ∈ prepare_feature_matrix_daily df, r.length = 15) := by
  intro df
  constructor
  · intro _ _
    exact ⟨countP_rows df (hourlyFeatureRow df) 167 (hourlyRow_isSome_iff df),
      filterMap_row_length df (hourlyFeatureRow df) 12 (fun i => rfl)⟩
  · intro _ _ _
    exact ⟨countP_rows df (dailyFeatureRow df) 49 (dailyRow_isSome_iff df),
      filterMap_row_length df (dailyFeatureRow df) 15 (fun i => rfl)⟩

set_option maxRecDepth 4000 in
/-- Witness for C5: constant-price frames of 169 hourly resp. 51 daily
candles yield exactly `169 - 167 = 2` resp. `51 - 49 = 2` feature rows. -/
theorem prepare_feature_matrix_row_counts_witness :
    (prepare_feature_matrix_hourly (List.replicate 169 ⟨0, 1, 1, 1, 1, 1⟩)).length =
      (List.replicate 169 (⟨0, 1, 1, 1, 1, 1⟩ : Candle)).length - 167
  ∧ (prepare_feature_matrix_daily (List.replicate 51 ⟨0, 1, 1, 1, 1, 1⟩)).length =
      (List.replicate 51 (⟨0, 1, 1, 1, 1, 1⟩ : Candle)).length - 49 :=
  ⟨((prepare_feature_matrix_row_counts (List.replicate 169 ⟨0, 1, 1, 1, 1, 1⟩)).1
      (fun c hc => by rw [List.eq_of_mem_replicate hc]; exact one_pos)
      (by rw [List.length_replicate])).1,
   ((prepare_feature_matrix_row_counts (List.replicate 51 ⟨0, 1, 1, 1, 1, 1⟩)).2
      (fun c hc => by rw [List.eq_of_mem_replicate hc]; exact one_pos)
      (fun c hc => by rw [List.eq_of_mem_replicate hc]; exact one_pos)
      (by rw [List.length_replicate])).1⟩

theorem offsetCorrect_head (latest p : ℚ) (ps : List ℚ) :
    (offsetCorrect latest (p :: ps)).head? = some latest := by
  simp only [offsetCorrect, List.map_cons, List.head?_cons, List.headD_cons, Option.some.injEq]
  ring

theorem offsetCorrect_take_head (latest p : ℚ) (ps : List ℚ) (n : ℕ) (hn : 1 ≤ n) :
    ((offsetCorrect latest (p :: ps)).take n).head? = some latest := by
  obtain ⟨m, rfl⟩ : ∃ m, n = m + 1 := ⟨n - 1, by omega⟩
  rw [show offsetCorrect latest (p :: ps) =
    (p + (latest - (p :: ps).headD 0)) :: (ps.map (fun x => x + (latest - (p :: ps).headD 0)))
    from rfl]
  simp only [List.take_succ_cons, List.head?_cons, List.headD_cons, Option.some.injEq]
  ring

theorem lastClose_of_getLast? (df : List Candle) (c : Candle) (h : df.getLast? = some c) :
    lastClose df = c.Close := by
  rw [lastClose, List.getLastD_eq_getLast?, List.getLast?_map, h]
  rfl

theorem dailyCore_cached_success (df : List Candle) (latest : ℚ) (store : MLStore)
    (env : DailyEnv) (horizon : ℕ) (force : Bool) (now : ℤ)
    (hacc : cacheAccepted store df.length force now = true)
    (p : ℚ) (ps : List ℚ) (hpred : env.cachedPredict = some (p :: ps))
    (hlen : min horizon 30 ≤ (p :: ps).length) :
    (dailyCore df latest store env horizon force now).1.forecast =
      (offsetCorrect latest (p :: ps)).take (min horizon 30) := by
  simp only [dailyCore, hacc, hpred, if_true]
  rw [if_pos hlen]

theorem dailyCore_trained_success (df : List Candle) (latest : ℚ) (store : MLStore)
    (env : DailyEnv) (horizon : ℕ) (force : Bool) (now : ℤ)
    (hacc : cacheAccepted store df.length force now = false)
    (hfeat : ¬ engineer_ml_features_len df < 100) (hfit : env.fit_ok = true)
    (p : ℚ) (ps : List ℚ) (hpred : env.trainedPredict = some (p :: ps))
    (hlen : min horizon 30 ≤ (p :: ps).length) :
    (dailyCore df latest store env horizon force now).1.forecast =
      (offsetCorrect latest (p :: ps)).take (min horizon 30) := by
  simp only [dailyCore, hacc, hpred, hfeat, hfit, if_false, Bool.not_true, Bool.false_eq_true]
  rw [if_pos hlen]

/-- Claim C7: on the gradient-boosted paths (the daily branch of
`generate_forecast` and the hourly `generate_hourly_forecast`), whenever the
model path completes — with a cached or a freshly trained artifact — the
request succeeds and the offset correction makes the first value of the
returned forecast series equal the last historical close exactly. -/
theorem gradient_boosted_forecast_starts_at_last_close :
    (∀ (df : List Candle) (csv : Option CsvFile) (store : MLStore) (env : DailyEnv)
       (lstm : Option (List ℚ)) (horizon : ℕ) (force : Bool) (now : ℤ)
       (p : ℚ) (ps : List ℚ),
       df ≠ [] → 2 < horizon →
       (cacheAccepted store df.length force now = true ∧
          env.cachedPredict = some (p :: ps)
        ∨ cacheAccepted store df.length force now = false ∧
          ¬ engineer_ml_features_len df < 100 ∧ env.fit_ok = true ∧
          env.trainedPredict = some (p :: ps)) →
       min horizon 30 ≤ (p :: ps).length →
       (∃ rs, generate_forecast (some df) csv store env lstm horizon force now = .ok rs)
       ∧ ∀ (r : ForecastResult) (store' : MLStore),
           generate_forecast (some df) csv store env lstm horizon force now = .ok (r, store') →
           r.forecast.head? = some (lastClose df))
  ∧ (∀ (df : List Candle) (store : HourlyMLStore) (env : HourlyEnv) (force : Bool)
       (p : ℚ) (ps : List ℚ),
       200 ≤ df.length →
       ((!force && (load_hourly_ml_model_and_scalers store).1.isSome &&
           (load_hourly_ml_model_and_scalers store).2.1.isSome &&
           (load_hourly_ml_model_and_scalers store).2.2.isSome) = true ∧
          env.cachedPredict = some (p :: ps)
        ∨ (!force && (load_hourly_ml_model_and_scalers store).1.isSome &&
           (load_hourly_ml_model_and_scalers store).2.1.isSome &&
           (load_hourly_ml_model_and_scalers store).2.2.isSome) = false ∧
          ¬ engineer_hourly_features_len df < 500 ∧ env.fit_ok = true ∧
          env.trainedPredict = some (p :: ps)) →
       (p :: ps).length = 24 →
       (∃ rs, generate_hourly_forecast (some df) store env force = .ok rs)
       ∧ ∀ (r : HourlyForecastResult) (store' : HourlyMLStore),
           generate_hourly_forecast (some df) store env force = .ok (r, store') →
           r.forecast.head? = some (lastClose df)) := by
  constructor
  · intro df csv store env lstm horizon force now p ps hdf hh hpath hlen
    have hpos : 0 < df.length := List.length_pos.mpr hdf
    have hload : load_price_series (some df) csv = .ok df := by
      simp [load_price_series, hpos]
    rcases hlast : df.getLast? with _ | c
    · exact absurd (List.getLast?_eq_none_iff.mp hlast) hdf
    · have hclose := lastClose_of_getLast? df c hlast
      have hfc : (dailyCore df c.Close store env horizon force now).1.forecast =
          (offsetCorrect c.Close (p :: ps)).take (min horizon 30) := by
        rcases hpath with ⟨hacc, hpred⟩ | ⟨hacc, hfeat, hfit, hpred⟩
        · exact dailyCore_cached_success df c.Close store env horizon force now hacc p ps
            hpred hlen
        · exact dailyCore_trained_success df c.Close store env horizon force now hacc hfeat
            hfit p ps hpred hlen
      constructor
      · exact generate_forecast_of_load_ok (some df) csv store env lstm horizon force now df c
          hload hlast
      · intro r store' hg
        simp only [generate_forecast, hload, hlast] at hg
        injection hg with hpair
        rw [Prod.mk.injEq] at hpair
        obtain ⟨h1, h2⟩ := hpair
        subst h1
        show (if horizon ≤ 2 then (hourlyLstmCore c.Close lstm horizon env.naiveNoise, store)
            else dailyCore df c.Close store env horizon force now).1.forecast.head? =
          some (lastClose df)
        rw [if_neg (by omega), hfc, hclose]
        exact offsetCorrect_take_head c.Close p ps (min horizon 30) (by omega)
  · intro df store env force p ps hlen200 hpath hlen
    have hnot : ¬ df.length < 200 := by omega
    have hgf : generate_hourly_forecast (some df) store env force =
        .ok (hourlyBody df store env force) := by
      simp [generate_hourly_forecast, hnot]
    have hhead : (hourlyBody df store env force).1.forecast.head? = some (lastClose df) := by
      rcases hpath with ⟨hacc, hpred⟩ | ⟨hacc, hfeat, hfit, hpred⟩
      · simp only [hourlyBody, hacc, hpred, if_true]
        rw [if_pos hlen]
        exact offsetCorrect_head (lastClose df) p ps
      · simp only [hourlyBody, hacc, hpred, hfeat, hfit, if_false, Bool.false_eq_true,
          Bool.not_true]
        rw [if_pos hlen]
        exact offsetCorrect_head (lastClose df) p ps
    constructor
    · exact ⟨_, hgf⟩
    · intro r store' hg
      rw [hgf] at hg
      injection hg with hpair
      rw [Prod.mk.injEq] at hpair
      obtain ⟨h1, h2⟩ := hpair
      rw [← h1]
      exact hhead

set_option maxRecDepth 8000 in
/-- Witness for C7: a one-candle daily frame (last close 2) with an accepted
cached artifact predicting `[5, 6, 7]`, and a 200-candle hourly frame (close
3) with a cached artifact predicting 24 constant steps; both forecasts start
at the last close. -/
theorem gradient_boosted_forecast_starts_at_last_close_witness :
    (∃ r store',
      generate_forecast (some [⟨0, 1, 1, 1, 2, 1⟩]) none
        ⟨some (), none, some (), some ⟨none, none, none, none, none⟩, none⟩
        ⟨true, 0, 0, some [5, 6, 7], none, fun _ => 0⟩ none 3 false 0 = .ok (r, store')
      ∧ r.forecast.head? = some 2)
  ∧ (∃ r store',
      generate_hourly_forecast (some (List.replicate 200 ⟨0, 1, 1, 1, 3, 1⟩))
        ⟨some (), some (), some ()⟩
        ⟨true, some (7 :: List.replicate 23 7), none, fun _ => 0⟩ false = .ok (r, store')
      ∧ r.forecast.head? = some 3) := by
  constructor
  · refine ⟨_, _, rfl, ?_⟩
    exact (gradient_boosted_forecast_starts_at_last_close.1 [⟨0, 1, 1, 1, 2, 1⟩] none
      ⟨some (), none, some (), some ⟨none, none, none, none, none⟩, none⟩
      ⟨true, 0, 0, some [5, 6, 7], none, fun _ => 0⟩ none 3 false 0 5 [6, 7]
      (by simp) (by norm_num) (Or.inl ⟨rfl, rfl⟩) (by norm_num)).2 _ _ rfl
  · refine ⟨_, _, rfl, ?_⟩
    exact (gradient_boosted_forecast_starts_at_last_close.2
      (List.replicate 200 ⟨0, 1, 1, 1, 3, 1⟩) ⟨some (), some (), some ()⟩
      ⟨true, some (7 :: List.replicate 23 7), none, fun _ => 0⟩ false 7 (List.replicate 23 7)
      (by rw [List.length_replicate]) (Or.inl ⟨rfl, rfl⟩)
      (by rw [List.length_cons, List.length_replicate])).2 _ _ rfl

theorem dailyCore_cached_fail (df : List Candle) (latest : ℚ) (store : MLStore)
    (env : DailyEnv) (horizon : ℕ) (force : Bool) (now : ℤ)
    (hacc : cacheAccepted store df.length force now = true)
    (hfail : ¬ predictUsable env.cachedPredict (min horizon 30)) :
    dailyCore df latest store env horizon force now =
      (naiveOut latest horizon env.naiveNoise (load_ml_model_info store) true, store) := by
  simp only [dailyCore, hacc, if_true]
  rcases hp : env.cachedPredict with _ | l
  · rfl
  · rcases l with _ | ⟨p, ps⟩
    · rfl
    · have hcond : ¬ (min horizon 30 ≤ (p :: ps).length) :=
        fun hle => hfail ⟨p, ps, hp, hle⟩
      simp [hcond]
      intro hor
      exfalso
      rw [List.length_cons] at hcond
      omega

theorem dailyCore_guard_fail (df : List Candle) (latest : ℚ) (store : MLStore)
    (env : DailyEnv) (horizon : ℕ) (force : Bool) (now : ℤ)
    (hacc : cacheAccepted store df.length force now = false)
    (hguard : engineer_ml_features_len df < 100 ∨ env.fit_ok = false) :
    dailyCore df latest store env horizon force now =
      (naiveOut latest horizon env.naiveNoise none false, store) := by
  simp only [dailyCore, hacc, Bool.false_eq_true, if_false]
  by_cases hfeat : engineer_ml_features_len df < 100
  · rw [if_pos hfeat]
  · rcases hguard with hg | hg
    · exact absurd hg hfeat
    · rw [if_neg hfeat, if_pos (by simp [hg])]

theorem dailyCore_trained_fail (df : List Candle) (latest : ℚ) (store : MLStore)
    (env : DailyEnv) (horizon : ℕ) (force : Bool) (now : ℤ)
    (hacc : cacheAccepted store df.length force now = false)
    (hfeat : ¬ engineer_ml_features_len df < 100) (hfit : env.fit_ok = true)
    (hfail : ¬ predictUsable env.trainedPredict (min horizon 30)) :
    dailyCore df latest store env horizon force now =
      (naiveOut latest horizon env.naiveNoise
        (some (trainDailyModel (engineer_ml_features_len df) env now store).1) false,
       (trainDailyModel (engineer_ml_features_len df) env now store).2) := by
  simp only [dailyCore, hacc, Bool.false_eq_true, if_false]
  rw [if_neg hfeat, if_neg (by simp [hfit])]
  rcases hp : env.trainedPredict with _ | l
  · rfl
  · rcases l with _ | ⟨p, ps⟩
    · rfl
    · have hcond : ¬ (min horizon 30 ≤ (p :: ps).length) :=
        fun hle => hfail ⟨p, ps, hp, hle⟩
      simp [hcond]
      intro hor
      exfalso
      rw [List.length_cons] at hcond
      omega

theorem hourlyLstmCore_fail (latest : ℚ) (lstm : Option (List ℚ)) (horizon : ℕ)
    (noise : ℕ → ℚ) (h : lstm = none ∨ lstm = some []) :
    hourlyLstmCore latest lstm horizon noise = naiveOut latest horizon noise none false := by
  rcases h with rfl | rfl <;> rfl

/-- Claim C1, counterexample: with an accepted cached daily artifact whose
inference fails (`cachedPredict` raises), the request falls back to the naive
forecast but returns `using_cached_model = True` and the loaded (non-empty)
metadata as `model_info` — not `False` and `{}` as the claim states. -/
theorem naive_fallback_flags_counterexample :
    ∃ (r : ForecastResult) (store' : MLStore),
      generate_forecast (some [⟨0, 1, 1, 1, 1, 1⟩]) none
        ⟨some (), none, some (), some ⟨none, none, none, none, none⟩, none⟩
        ⟨true, 0, 0, none, none, fun _ => 0⟩ none 7 false 0 = .ok (r, store')
      ∧ r.forecast = naive_forecast 1 7 (fun _ => 0)
      ∧ r.using_cached_model = true
      ∧ r.model_info = some ⟨none, none, none, none, none⟩ := by
  refine ⟨_, _, rfl, rfl, rfl, rfl⟩

/-- Claim C1, amended: when the model path of `generate_forecast` fails after
data acquisition succeeded, the result is a naive forecast and the provenance
flags are whatever had been assigned before the failure: `False`/`{}` when the
failure happens before any artifact is accepted (hourly LSTM branch, the
too-little-data guard, a `fit` failure), but `True` and the loaded metadata
when inference on an accepted cached artifact fails, and `False` with the
fresh in-memory metrics when the post-retrain prediction fails (the retrained
artifact having already been saved). -/
theorem naive_fallback_flags_amended :
    ∀ (df : List Candle) (csv : Option CsvFile) (store : MLStore) (env : DailyEnv)
      (lstm : Option (List ℚ)) (horizon : ℕ) (force : Bool) (now : ℤ)
      (c : Candle) (r : ForecastResult) (store' : MLStore),
      df.getLast? = some c →
      generate_forecast (some df) csv store env lstm horizon force now = .ok (r, store') →
      ((2 < horizon → cacheAccepted store df.length force now = true →
          ¬ predictUsable env.cachedPredict (min horizon 30) →
          r.forecast = naive_forecast (lastClose df) horizon env.naiveNoise
          ∧ r.using_cached_model = true
          ∧ r.model_info = load_ml_model_info store
          ∧ store' = store)
      ∧ (2 < horizon → cacheAccepted store df.length force now = false →
          (engineer_ml_features_len df < 100 ∨ env.fit_ok = false) →
          r.forecast = naive_forecast (lastClose df) horizon env.naiveNoise
          ∧ r.using_cached_model = false ∧ r.model_info = none ∧ store' = store)
      ∧ (2 < horizon → cacheAccepted store df.length force now = false →
          ¬ engineer_ml_features_len df < 100 → env.fit_ok = true →
          ¬ predictUsable env.trainedPredict (min horizon 30) →
          r.forecast = naive_forecast (lastClose df) horizon env.naiveNoise
          ∧ r.using_cached_model = false
          ∧ r.model_info = some (trainDailyModel (engineer_ml_features_len df) env now store).1
          ∧ store' = (trainDailyModel (engineer_ml_features_len df) env now store).2)
      ∧ (horizon ≤ 2 → (lstm = none ∨ lstm = some []) →
          r.forecast = naive_forecast (lastClose df) horizon env.naiveNoise
          ∧ r.using_cached_model = false ∧ r.model_info = none ∧ store' = store)) := by
  intro df csv store env lstm horizon force now c r store' hlast hg
  have hdf : df ≠ [] := by
    intro h
    rw [h] at hlast
    simp at hlast
  have hpos : 0 < df.length := List.length_pos.mpr hdf
  have hload : load_price_series (some df) csv = .ok df := by
    simp [load_price_series, hpos]
  have hclose := lastClose_of_getLast? df c hlast
  simp only [generate_forecast, hload, hlast] at hg
  injection hg with hpair
  rw [Prod.mk.injEq] at hpair
  obtain ⟨h1, h2⟩ := hpair
  subst h1
  subst h2
  refine ⟨?_, ?_, ?_, ?_⟩
  · intro hh hacc hfail
    have hcore := dailyCore_cached_fail df c.Close store env horizon force now hacc hfail
    refine ⟨?_, ?_, ?_, ?_⟩
    · show (if horizon ≤ 2 then (hourlyLstmCore c.Close lstm horizon env.naiveNoise, store)
          else dailyCore df c.Close store env horizon force now).1.forecast = _
      rw [if_neg (by omega), hcore, hclose]
      rfl
    · show (if horizon ≤ 2 then (hourlyLstmCore c.Close lstm horizon env.naiveNoise, store)
          else dailyCore df c.Close store env horizon force now).1.using_cached_model = _
      rw [if_neg (by omega), hcore]
      rfl
    · show (if horizon ≤ 2 then (hourlyLstmCore c.Close lstm horizon env.naiveNoise, store)
          else dailyCore df c.Close store env horizon force now).1.model_info = _
      rw [if_neg (by omega), hcore]
      rfl
    · show (if horizon ≤ 2 then (hourlyLstmCore c.Close lstm horizon env.naiveNoise, store)
          else dailyCore df c.Close store env horizon force now).2 = _
      rw [if_neg (by omega), hcore]
  · intro hh hacc hguard
    have hcore := dailyCore_guard_fail df c.Close store env horizon force now hacc hguard
    refine ⟨?_, ?_, ?_, ?_⟩
    · show (if horizon ≤ 2 then (hourlyLstmCore c.Close lstm horizon env.naiveNoise, store)
          else dailyCore df c.Close store env horizon force now).1.forecast = _
      rw [if_neg (by omega), hcore, hclose]
      rfl
    · show (if horizon ≤ 2 then (hourlyLstmCore c.Close lstm horizon env.naiveNoise, store)
          else dailyCore df c.Close store env horizon force now).1.using_cached_model = _
      rw [if_neg (by omega), hcore]
      rfl
    · show (if horizon ≤ 2 then (hourlyLstmCore c.Close lstm horizon env.naiveNoise, store)
          else dailyCore df c.Close store env horizon force now).1.model_info = _
      rw [if_neg (by omega), hcore]
      rfl
    · show (if horizon ≤ 2 then (hourlyLstmCore c.Close lstm horizon env.naiveNoise, store)
          else dailyCore df c.Close store env horizon force now).2 = _
      rw [if_neg (by omega), hcore]
  · intro hh hacc hfeat hfit hfail
    have hcore := dailyCore_trained_fail df c.Close store env horizon force now hacc hfeat
      hfit hfail
    refine ⟨?_, ?_, ?_, ?_⟩
    · show (if horizon ≤ 2 then (hourlyLstmCore c.Close lstm horizon env.naiveNoise, store)
          else dailyCore df c.Close store env horizon force now).1.forecast = _
      rw [if_neg (by omega), hcore, hclose]
      rfl
    · show (if horizon ≤ 2 then (hourlyLstmCore c.Close lstm horizon env.naiveNoise, store)
          else dailyCore df c.Close store env horizon force now).1.using_cached_model = _
      rw [if_neg (by omega), hcore]
      rfl
    · show (if horizon ≤ 2 then (hourlyLstmCore c.Close lstm horizon env.naiveNoise, store)
          else dailyCore df c.Close store env horizon force now).1.model_info = _
      rw [if_neg (by omega), hcore]
      rfl
    · show (if horizon ≤ 2 then (hourlyLstmCore c.Close lstm horizon env.naiveNoise, store)
          else dailyCore df c.Close store env horizon force now).2 = _
      rw [if_neg (by omega), hcore]
  · intro hh hlstm
    have hcore := hourlyLstmCore_fail c.Close lstm horizon env.naiveNoise hlstm
    refine ⟨?_, ?_, ?_, ?_⟩
    · show (if horizon ≤ 2 then (hourlyLstmCore c.Close lstm horizon env.naiveNoise, store)
          else dailyCore df c.Close store env horizon force now).1.forecast = _
      rw [if_pos hh, hcore, hclose]
      rfl
    · show (if horizon ≤ 2 then (hourlyLstmCore c.Close lstm horizon env.naiveNoise, store)
          else dailyCore df c.Close store env horizon force now).1.using_cached_model = _
      rw [if_pos hh, hcore]
      rfl
    · show (if horizon ≤ 2 then (hourlyLstmCore c.Close lstm horizon env.naiveNoise, store)
          else dailyCore df c.Close store env horizon force now).1.model_info = _
      rw [if_pos hh, hcore]
      rfl
    · show (if horizon ≤ 2 then (hourlyLstmCore c.Close lstm horizon env.naiveNoise, store)
          else dailyCore df c.Close store env horizon force now).2 = _
      rw [if_pos hh]

/-- Witness for the amended C1 at a concrete request: a one-candle frame
(close 2) with an accepted cached artifact whose inference raises; the result
is the naive forecast with `using_cached_model = True`. -/
theorem naive_fallback_flags_amended_witness :
    ∃ (r : ForecastResult) (store' : MLStore),
      generate_forecast (some [⟨0, 2, 2, 2, 2, 2⟩]) none
        ⟨some (), none, some (), some ⟨none, none, none, none, none⟩, none⟩
        ⟨true, 0, 0, none, none, fun _ => 0⟩ none 5 false 0 = .ok (r, store')
      ∧ r.forecast = naive_forecast 2 5 (fun _ => 0)
      ∧ r.using_cached_model = true := by
  refine ⟨_, _, rfl, ?_, ?_⟩
  · exact ((naive_fallback_flags_amended [⟨0, 2, 2, 2, 2, 2⟩] none
      ⟨some (), none, some (), some ⟨none, none, none, none, none⟩, none⟩
      ⟨true, 0, 0, none, none, fun _ => 0⟩ none 5 false 0 ⟨0, 2, 2, 2, 2, 2⟩ _ _ rfl rfl).1
      (by norm_num) rfl
      (by rintro ⟨p, ps, hp, -⟩; exact Option.noConfusion hp)).1
  · exact ((naive_fallback_flags_amended [⟨0, 2, 2, 2, 2, 2⟩] none
      ⟨some (), none, some (), some ⟨none, none, none, none, none⟩, none⟩
      ⟨true, 0, 0, none, none, fun _ => 0⟩ none 5 false 0 ⟨0, 2, 2, 2, 2, 2⟩ _ _ rfl rfl).1
      (by norm_num) rfl
      (by rintro ⟨p, ps, hp, -⟩; exact Option.noConfusion hp)).2.1

theorem lossesOf_all_zero (xs : List ℚ) (h : ∀ d : ℚ, some d ∈ seriesDiff xs → 0 ≤ d) :
    ∀ x ∈ lossesOf (seriesDiff xs), x = 0 := by
  intro x hx
  rw [lossesOf, List.mem_map] at hx
  obtain ⟨o, ho, rfl⟩ := hx
  cases o with
  | none => rfl
  | some d =>
    have hd := h d ho
    simp [not_lt.mpr hd]

theorem listMean_zero (xs : List ℚ) (h : ∀ x ∈ xs, x = 0) : listMean xs = 0 := by
  rw [listMean, List.sum_eq_zero h, zero_div]

theorem zipWith_second_none (f : Option ℚ → Option ℚ → Option ℚ)
    (hf : ∀ g, f g none = none) :
    ∀ (as bs : List (Option ℚ)), (∀ b ∈ bs, b = none) →
      ∀ x ∈ List.zipWith f as bs, x = none := by
  intro as
  induction as with
  | nil => intro bs _ x hx; simp at hx
  | cons a as ih =>
    intro bs hbs x hx
    cases bs with
    | nil => simp at hx
    | cons b bs =>
      rw [List.zipWith_cons_cons, List.mem_cons] at hx
      rcases hx with rfl | hx
      · rw [hbs b (by simp), hf]
      · exact ih bs (fun b' hb' => hbs b' (by simp [hb'])) x hx

theorem getLastD_none (l : List (Option ℚ)) (h : ∀ x ∈ l, x = none) :
    l.getLastD none = none := by
  induction l with
  | nil => rfl
  | cons a l ih =>
    rw [List.getLastD_cons]
    cases l with
    | nil => exact h a (by simp)
    | cons b l' =>
      have : ∀ x ∈ b :: l', x = (none : Option ℚ) := fun x hx => h x (by simp [List.mem_cons] at hx ⊢; tauto)
      calc (b :: l').getLastD a = (b :: l').getLastD none := by
            rw [List.getLastD_cons, List.getLastD_cons]
        _ = none := ih this

/-- When a price series never falls, the average loss is 0 in every RSI
window; `loss.replace({0: nan})` then makes `rs` — and so the RSI — NaN. -/
theorem rsi_eq_none_of_no_losses (xs : List ℚ)
    (h : ∀ d : ℚ, some d ∈ seriesDiff xs → 0 ≤ d) : rsi xs = none := by
  have hloss := lossesOf_all_zero xs h
  have hrepl : replaceZeroWithNaN (rollingMeanList (lossesOf (seriesDiff xs)) 14) =
      (List.range (lossesOf (seriesDiff xs)).length).map (fun _ => none) := by
    rw [replaceZeroWithNaN, rollingMeanList, List.map_map]
    refine List.map_congr_left ?_
    intro i _
    simp only [Function.comp_apply]
    by_cases hw : 14 ≤ i + 1
    · rw [if_pos hw]
      have hmean : listMean (((lossesOf (seriesDiff xs)).drop (i - 13)).take 14) = 0 :=
        listMean_zero _
          (fun x hx => hloss x (List.mem_of_mem_drop (List.mem_of_mem_take hx)))
      rw [show i + 1 - 14 = i - 13 from by omega]
      simp [hmean]
    · rw [if_neg hw]
  simp only [rsi, hrepl]
  refine getLastD_none _ ?_
  intro x hx
  rw [List.mem_map] at hx
  obtain ⟨o, ho, rfl⟩ := hx
  have honone : o = none := by
    refine zipWith_second_none _ (fun g => by cases g <;> rfl) _ _ ?_ o ho
    intro b hb
    rw [List.mem_map] at hb
    obtain ⟨_, _, rfl⟩ := hb
    rfl
  rw [honone]
  rfl

/-- With a NaN RSI both the Bullish and the Bearish condition of
`classify_sentiment` are false (Python NaN comparisons), so the label is
Neutral with score 0 regardless of MACD and EMA. -/
theorem classify_sentiment_neutral_of_rsi_none (a f : List ℚ) (h : ℕ)
    (hrsi : rsi (a ++ f) = none) :
    (classify_sentiment a f h).label = "Neutral" ∧ (classify_sentiment a f h).score = 0 := by
  constructor <;> simp [classify_sentiment, hrsi, optGT, optLT]

/-- The strictly increasing synthetic series of the C9 scenario: historical
part `1..20`. -/
def increasingActual : List ℚ :=
  [1, 2, 3, 4, 5, 6, 7, 8, 9, 10, 11, 12, 13, 14, 15, 16, 17, 18, 19, 20]

/-- Forecast part `21..30` of the C9 scenario. -/
def increasingForecast : List ℚ := [21, 22, 23, 24, 25, 26, 27, 28, 29, 30]

theorem increasing_deltas_nonneg :
    ∀ d : ℚ, some d ∈ seriesDiff (increasingActual ++ increasingForecast) → 0 ≤ d := by
  intro d hd
  simp only [seriesDiff, List.mem_map, List.mem_range] at hd
  obtain ⟨i, hi, hif⟩ := hd
  by_cases h0 : i = 0
  · rw [h0] at hif
    simp at hif
  · rw [if_neg h0] at hif
    injection hif with hd'
    rw [← hd', sub_nonneg]
    have hi' : i < 30 := by
      simpa [increasingActual, increasingForecast] using hi
    have h1 : 1 ≤ i := by omega
    interval_cases i <;>
      norm_num [increasingActual, increasingForecast, List.getD_cons_succ, List.getD_cons_zero]

/-- Claim C9 (code bug): for the strictly increasing 30-sample series
`1..30` — long enough for every indicator window — `classify_sentiment`
returns the label `"Neutral"` with score 0, not `"Bullish"` with a positive
score: with no losses, `_rsi`'s `loss.replace({0: nan})` turns the zero
average loss into NaN, the RSI comparison `rsi > 55` is then false, and the
Bullish branch can never fire. -/
theorem classify_sentiment_increasing_series_neutral :
    List.Chain' (· < ·) (increasingActual ++ increasingForecast)
  ∧ (increasingActual ++ increasingForecast).length = 30
  ∧ (classify_sentiment increasingActual increasingForecast 7).label = "Neutral"
  ∧ (classify_sentiment increasingActual increasingForecast 7).score = 0 := by
  have hrsi : rsi (increasingActual ++ increasingForecast) = none :=
    rsi_eq_none_of_no_losses _ increasing_deltas_nonneg
  obtain ⟨hl, hs⟩ :=
    classify_sentiment_neutral_of_rsi_none increasingActual increasingForecast 7 hrsi
  refine ⟨?_, ?_, hl, hs⟩
  · norm_num [increasingActual, increasingForecast, List.chain'_cons]
  · rfl

end CryptoPulse
